import Mathlib

/-!
Verification of the Cave-planner gas-consumption engine.

The definitions below are a shallow embedding of `src/lib/gasCalculations.ts`,
`src/lib/types.ts` and the `fixDistance` helper of `src/lib/SectionList.svelte`.
JavaScript numbers are modelled as exact rationals (`ℚ`); `Math.ceil`,
`Math.floor` and `Math.round` become the integer ceiling/floor on `ℚ`.
The engine's first pass (sequential gas consumption) is a structural
recursion over the section list carrying an explicit simulation state; the
second pass (recalculation results and turn-warning fixing) is a second
recursion over the zipped sections and first-pass snapshots carrying the
active recalculation threshold.
-/

namespace CavePlanner

/-- A bottle type from types.ts: name, display label, internal volume (L). -/
structure BottleType where
  name : String
  label : String
  volume : ℚ
deriving DecidableEq

/-- BOTTOM_GAS_TYPES from types.ts. -/
def BOTTOM_GAS_TYPES : List BottleType :=
  [⟨"2x80", "2x80 (22L)", 22⟩, ⟨"d12", "D12 (24L)", 24⟩]

/-- STAGE_TANK_TYPES from types.ts. -/
def STAGE_TANK_TYPES : List BottleType :=
  [⟨"alu80", "Alu80 (11L)", 11⟩, ⟨"alu40", "Alu40 (5.5L)", 11 / 2⟩]

/-- getBottomGasVolume from types.ts: lookup with default 22. -/
def getBottomGasVolume (t : String) : ℚ :=
  ((BOTTOM_GAS_TYPES.find? (fun b => b.name == t)).map (fun b => b.volume)).getD 22

/-- getStageVolume from types.ts: lookup with default 11. -/
def getStageVolume (t : String) : ℚ :=
  ((STAGE_TANK_TYPES.find? (fun b => b.name == t)).map (fun b => b.volume)).getD 11

/-- Stage tank display label lookup used by the kill-stage scenario
(`STAGE_TANK_TYPES.find(...)?.label ?? tankType` in gasCalculations.ts). -/
def stageTankLabel (t : String) : String :=
  ((STAGE_TANK_TYPES.find? (fun b => b.name == t)).map (fun b => b.label)).getD t

/-- StageEntry from types.ts. -/
structure StageEntry where
  id : String
  tankType : String
  fillPressure : ℚ
  reserveInBackGas : Bool
deriving DecidableEq

/-- StandingData from types.ts. -/
structure StandingData where
  scr : ℚ
  swimSpeed : ℚ
  bottomGasType : String
  bottomGasFillPressure : ℚ
  conservatism : ℚ
  stageStandingTime : ℚ
  stages : List StageEntry
deriving DecidableEq

/-- SectionType from types.ts. -/
inductive SectionType
  | swim
  | tLeft
  | tRight
  | jumpLeft
  | jumpRight
  | stageDrop
  | turnaround
  | recalculation
deriving DecidableEq

/-- Section from types.ts. -/
structure Section where
  id : String
  type : SectionType
  avgDepth : ℚ
  distance : ℚ
  stageId : Option String := none
deriving DecidableEq

/-- StageState from types.ts. -/
structure StageState where
  id : String
  tankType : String
  initialPressure : ℚ
  currentPressure : ℚ
  volume : ℚ
  dropPressure : ℚ
  dropped : Bool
deriving DecidableEq

/-- The scenario tag of a RecalculationResult
(`'kill-stage' | 'backgas-reentry'` in types.ts). -/
inductive ScenarioTag
  | killStage
  | backgasReentry
deriving DecidableEq

/-- RecalculationResult from types.ts; the optional scenario extras are
`Option ℚ` fields. -/
structure RecalculationResult where
  possible : Bool
  scenarioKind : ScenarioTag
  availableGasLiters : ℚ
  availableGasBar : ℚ
  gasSourceLabel : String
  gasSourceVolume : ℚ
  backGasToExitLiters : ℚ
  backGasToExitBar : ℚ
  recalcTurnPressureBar : ℚ
  stageRemainingLiters : Option ℚ := none
  stageRemainingBar : Option ℚ := none
  stageReservationLiters : Option ℚ := none
deriving DecidableEq

/-- A pending auto-drop advisory from gasCalculations.ts. -/
structure PendingDropInsert where
  afterSectionId : String
  stageId : String
  splitAtDistance : Option ℚ
deriving DecidableEq

/-- SectionResult from types.ts (the fields produced by calculateDive). -/
structure SectionResult where
  sectionId : String
  time : ℚ
  depth : ℚ
  gasConsumed : ℚ
  runningTime : ℚ
  runningAvgDepth : ℚ
  remainingBackGasLiters : ℚ
  remainingBackGasBar : ℚ
  stageStates : List StageState
  stageDroppedIds : List String
  turnWarning : Bool
  backGasUsedTotal : ℚ
  effectiveBackGas : ℚ
  usableBackGas : ℚ
  breathedStageIds : List String
  breathedBackGas : Bool
  isWayBack : Bool
  recalculation : Option RecalculationResult := none
deriving DecidableEq

/-- DiveCalculation from types.ts. -/
structure DiveCalculation where
  sections : List SectionResult
  totalBackGas : ℚ
  stageReservation : ℚ
  effectiveBackGas : ℚ
  usableBackGas : ℚ
  usableBackGasRounded : ℚ
  bottomGasVolume : ℚ
  pendingDropInserts : List PendingDropInsert
deriving DecidableEq

/-- Math.ceil(x / 10) * 10 on rationals. -/
def ceilTen (x : ℚ) : ℚ := ((⌈x / 10⌉ : ℤ) : ℚ) * 10

/-- Math.floor(x / 10) * 10 on rationals. -/
def floorTen (x : ℚ) : ℚ := ((⌊x / 10⌋ : ℤ) : ℚ) * 10

/-- Math.round on rationals (round half up, as JavaScript does). -/
def jsRound (x : ℚ) : ℚ := ((⌊x + 1 / 2⌋ : ℤ) : ℚ)

/-- The primary tank volume used throughout calculateDive. -/
def bottomGasVolume (cfg : StandingData) : ℚ := getBottomGasVolume cfg.bottomGasType

/-- totalBackGas in calculateDive: volume × fill pressure. -/
def totalBackGas (cfg : StandingData) : ℚ :=
  bottomGasVolume cfg * cfg.bottomGasFillPressure

/-- stageReservation in calculateDive: for every stage flagged
reserveInBackGas, the volume from fill pressure down to the drop
pressure (fill/2 + 15). -/
def stageReservation (cfg : StandingData) : ℚ :=
  cfg.stages.foldl
    (fun acc s =>
      if s.reserveInBackGas then
        acc + (s.fillPressure - (s.fillPressure / 2 + 15)) * getStageVolume s.tankType
      else acc)
    0

/-- effectiveBackGas in calculateDive. -/
def effectiveBackGas (cfg : StandingData) : ℚ :=
  totalBackGas cfg - stageReservation cfg

/-- usableBackGas in calculateDive: a third of the effective back gas minus
the conservatism margin in liters. -/
def usableBackGas (cfg : StandingData) : ℚ :=
  effectiveBackGas cfg / 3 - cfg.conservatism * bottomGasVolume cfg

/-- turnPressureBar in calculateDive: the turn pressure rounded up to the
nearest 10 bar (0 when the tank volume is not positive). -/
def turnPressureBar (cfg : StandingData) : ℚ :=
  if 0 < bottomGasVolume cfg then
    ceilTen ((totalBackGas cfg - usableBackGas cfg) / bottomGasVolume cfg)
  else 0

/-- usableBackGasRounded in calculateDive: the usable volume rounded down to
the nearest 10-bar equivalent. -/
def usableBackGasRounded (cfg : StandingData) : ℚ :=
  if 0 < bottomGasVolume cfg then
    floorTen (usableBackGas cfg / bottomGasVolume cfg) * bottomGasVolume cfg
  else usableBackGas cfg

/-- The set (as a list) of stage ids that have an explicit stage-drop
section while going in; the boolean argument is the direction scan state
(`wb` in the source). -/
def explicitDropStageIds : List Section → Bool → List String
  | [], _ => []
  | s :: rest, wb =>
    let wb2 : Bool :=
      if s.type = SectionType.turnaround then !wb
      else if s.type = SectionType.recalculation then false
      else wb
    let tail := explicitDropStageIds rest wb2
    match s.stageId with
    | some sid =>
        if s.type = SectionType.stageDrop ∧ sid ≠ "" ∧ wb2 = false then sid :: tail
        else tail
    | none => tail

/-- The initial per-stage simulation state built from the standing data. -/
def initialStageStates (cfg : StandingData) : List StageState :=
  cfg.stages.map fun s =>
    { id := s.id
      tankType := s.tankType
      initialPressure := s.fillPressure
      currentPressure := s.fillPressure
      volume := getStageVolume s.tankType
      dropPressure := s.fillPressure / 2 + 15
      dropped := false }

/-- Accumulator of the per-section stage-consumption loop: remaining demand,
stage ids dropped this section, stage ids breathed from this section, and
the pending auto-drop advisories recorded so far. -/
structure ConsumeState where
  remaining : ℚ
  droppedIds : List String
  breathedIds : List String
  inserts : List PendingDropInsert
deriving DecidableEq

/-- The optional split distance of an auto-drop advisory
(`section.type === 'swim' && gasNeeded > 0 ? Math.round(...) : undefined`). -/
def splitDist (sec : Section) (gasNeeded consumed : ℚ) : Option ℚ :=
  if sec.type = SectionType.swim ∧ 0 < gasNeeded then
    some (jsRound (consumed / gasNeeded * sec.distance))
  else none

/-- The stage-consumption loop of calculateDive, as a left-to-right scan over
the stage list. The source repeatedly picks the first stage that is neither
dropped nor skipped; since the dropped/skipped sets only grow, that is the
same as one pass over the list in order. -/
def consumeFromStages (ids : List String) (sec : Section) (gasNeeded : ℚ) :
    List StageState → ConsumeState → List StageState × ConsumeState
  | [], cs => ([], cs)
  | st :: rest, cs =>
    if cs.remaining ≤ 0 then (st :: rest, cs)
    else if st.dropped then
      let out := consumeFromStages ids sec gasNeeded rest cs
      (st :: out.1, out.2)
    else
      let available := (st.currentPressure - st.dropPressure) * st.volume
      if available ≤ 0 then
        if st.id ∈ ids then
          let out := consumeFromStages ids sec gasNeeded rest cs
          (st :: out.1, out.2)
        else
          let consumed := gasNeeded - cs.remaining
          let cs2 : ConsumeState :=
            { cs with
              droppedIds := cs.droppedIds ++ [st.id]
              inserts := cs.inserts ++ [⟨sec.id, st.id, splitDist sec gasNeeded consumed⟩] }
          let out := consumeFromStages ids sec gasNeeded rest cs2
          ({ st with dropped := true } :: out.1, out.2)
      else if cs.remaining ≤ available then
        ({ st with currentPressure := st.currentPressure - cs.remaining / st.volume } :: rest,
         { cs with remaining := 0, breathedIds := cs.breathedIds ++ [st.id] })
      else
        let newRemaining := cs.remaining - available
        let consumed := gasNeeded - newRemaining
        let csb : ConsumeState :=
          { cs with remaining := newRemaining, breathedIds := cs.breathedIds ++ [st.id] }
        if st.id ∈ ids then
          let out := consumeFromStages ids sec gasNeeded rest csb
          ({ st with currentPressure := st.dropPressure } :: out.1, out.2)
        else
          let cs2 : ConsumeState :=
            { csb with
              droppedIds := csb.droppedIds ++ [st.id]
              inserts := csb.inserts ++ [⟨sec.id, st.id, splitDist sec gasNeeded consumed⟩] }
          let out := consumeFromStages ids sec gasNeeded rest cs2
          ({ st with currentPressure := st.dropPressure, dropped := true } :: out.1, out.2)

/-- Replace the first element satisfying the predicate (the effect of
`stageStates.find(...)` followed by a mutation in the source). -/
def updateFirst (p : α → Bool) (f : α → α) : List α → List α
  | [] => []
  | a :: rest => if p a then f a :: rest else a :: updateFirst p f rest

/-- The stage drop/pickup mutation performed by a stage-drop section. -/
def applyStageEvent (wayBack : Bool) (sid : Option String) (states : List StageState) :
    List StageState :=
  match sid with
  | none => states
  | some s =>
    if wayBack then
      updateFirst (fun st => st.id == s)
        (fun st => if st.dropped then { st with dropped := false, dropPressure := 0 } else st)
        states
    else
      updateFirst (fun st => st.id == s) (fun st => { st with dropped := true }) states

/-- Elapsed time of a section. -/
def sectionTime (cfg : StandingData) (sec : Section) : ℚ :=
  match sec.type with
  | SectionType.turnaround => 0
  | SectionType.recalculation => 0
  | SectionType.stageDrop => cfg.stageStandingTime
  | SectionType.swim => if 0 < cfg.swimSpeed then sec.distance / cfg.swimSpeed else 0
  | SectionType.tLeft => 0
  | SectionType.tRight => 0
  | SectionType.jumpLeft => 2
  | SectionType.jumpRight => 2

/-- Direction for the sections after this one: toggled by turnaround, reset
to way-in by recalculation. -/
def nextDirection (dir : Bool) (sec : Section) : Bool :=
  if sec.type = SectionType.turnaround then !dir
  else if sec.type = SectionType.recalculation then false
  else dir

/-- Mutable state of the first pass of calculateDive. -/
structure SimState where
  stageStates : List StageState
  remainingBackGasLiters : ℚ
  backGasUsedTotal : ℚ
  runningTime : ℚ
  timeDepthProduct : ℚ
  currentDepth : ℚ
  isWayBack : Bool
  inserts : List PendingDropInsert
deriving DecidableEq

/-- Effective depth of a section: the swim depth for a swim, otherwise the
carried-forward current depth. -/
def sectionDepth (st : SimState) (sec : Section) : ℚ :=
  if sec.type = SectionType.swim then sec.avgDepth else st.currentDepth

/-- Gas demand of a section: SCR × atmospheres × time. -/
def gasNeededFor (cfg : StandingData) (st : SimState) (sec : Section) : ℚ :=
  cfg.scr * (sectionDepth st sec / 10 + 1) * sectionTime cfg sec

/-- Stage states after the drop/pickup mutation of a stage-drop section
(every other section leaves them untouched at this point). -/
def preStates (st : SimState) (sec : Section) : List StageState :=
  if sec.type = SectionType.stageDrop then
    applyStageEvent st.isWayBack sec.stageId st.stageStates
  else st.stageStates

/-- Stage consumption of one section: the stage-drop standing time is paid
from back gas only (the loop is skipped), every other section drains the
stages first. -/
def sectionConsumption (cfg : StandingData) (ids : List String) (st : SimState)
    (sec : Section) : List StageState × ConsumeState :=
  if sec.type = SectionType.stageDrop then
    (preStates st sec, ⟨gasNeededFor cfg st sec, [], [], st.inserts⟩)
  else
    consumeFromStages ids sec (gasNeededFor cfg st sec) (preStates st sec)
      ⟨gasNeededFor cfg st sec, [], [], st.inserts⟩

/-- One iteration of the first pass of calculateDive: process one section,
returning the updated simulation state and the emitted snapshot. -/
def simStep (cfg : StandingData) (ids : List String) (st : SimState) (sec : Section) :
    SimState × SectionResult :=
  let sectionIsWayBack := st.isWayBack
  let time := sectionTime cfg sec
  let depth := sectionDepth st sec
  let gasNeeded := gasNeededFor cfg st sec
  let out := sectionConsumption cfg ids st sec
  let states2 := out.1
  let cs := out.2
  let breathedBack : Bool := decide (0 < cs.remaining)
  let remBack2 :=
    if 0 < cs.remaining then st.remainingBackGasLiters - cs.remaining
    else st.remainingBackGasLiters
  let used2 :=
    if 0 < cs.remaining then st.backGasUsedTotal + cs.remaining else st.backGasUsedTotal
  let runningTime2 := st.runningTime + time
  let tdp2 := st.timeDepthProduct + time * depth
  let runningAvg := if 0 < runningTime2 then tdp2 / runningTime2 else 0
  let remBar := if 0 < bottomGasVolume cfg then remBack2 / bottomGasVolume cfg else 0
  let warn : Bool :=
    (!sectionIsWayBack) && decide (remBar < turnPressureBar cfg)
      && decide (0 < turnPressureBar cfg)
  ({ stageStates := states2
     remainingBackGasLiters := remBack2
     backGasUsedTotal := used2
     runningTime := runningTime2
     timeDepthProduct := tdp2
     currentDepth := if sec.type = SectionType.swim then sec.avgDepth else st.currentDepth
     isWayBack := nextDirection st.isWayBack sec
     inserts := cs.inserts },
   { sectionId := sec.id
     time := time
     depth := depth
     gasConsumed := gasNeeded
     runningTime := runningTime2
     runningAvgDepth := runningAvg
     remainingBackGasLiters := remBack2
     remainingBackGasBar := remBar
     stageStates := states2
     stageDroppedIds := cs.droppedIds
     turnWarning := warn
     backGasUsedTotal := used2
     effectiveBackGas := effectiveBackGas cfg
     usableBackGas := usableBackGas cfg
     breathedStageIds := cs.breathedIds
     breathedBackGas := breathedBack
     isWayBack := sectionIsWayBack })

/-- The first pass of calculateDive over the whole section list. -/
def runSections (cfg : StandingData) (ids : List String) :
    SimState → List Section → SimState × List SectionResult
  | st, [] => (st, [])
  | st, sec :: rest =>
    let step := simStep cfg ids st sec
    let out := runSections cfg ids step.1 rest
    (out.1, step.2 :: out.2)

/-- The initial simulation state of calculateDive. -/
def initState (cfg : StandingData) : SimState :=
  { stageStates := initialStageStates cfg
    remainingBackGasLiters := totalBackGas cfg
    backGasUsedTotal := 0
    runningTime := 0
    timeDepthProduct := 0
    currentDepth := 0
    isWayBack := false
    inserts := [] }

/-- The recalculation block of calculateDive's second pass: given the tank
volume, the total back gas used at the end of the dive and the snapshot at
the recalculation section, build the RecalculationResult. -/
def computeRecalc (vol totalUsedAtEnd : ℚ) (res : SectionResult) : RecalculationResult :=
  let backGasToExit := totalUsedAtEnd - res.backGasUsedTotal
  let backGasToExitBar := if 0 < vol then backGasToExit / vol else 0
  match res.stageStates.find? (fun s => !s.dropped && decide (0 < s.currentPressure)) with
  | some a =>
    let stageRemaining := a.currentPressure * a.volume
    let possible : Bool := decide (backGasToExit + stageRemaining ≤ res.remainingBackGasLiters / 2)
    let roundedBar := floorTen a.currentPressure
    let roundedLiters := roundedBar * a.volume
    let recalcTurn := floorTen res.remainingBackGasBar
    { possible := possible
      scenarioKind := ScenarioTag.killStage
      availableGasLiters := roundedLiters
      availableGasBar := roundedBar
      gasSourceLabel := stageTankLabel a.tankType
      gasSourceVolume := a.volume
      backGasToExitLiters := backGasToExit
      backGasToExitBar := backGasToExitBar
      recalcTurnPressureBar := recalcTurn
      stageRemainingLiters := some roundedLiters
      stageRemainingBar := some roundedBar }
  | none =>
    let droppedWithGas :=
      res.stageStates.filter (fun s => s.dropped && decide (0 < s.currentPressure))
    if droppedWithGas.isEmpty then
      let available := (res.remainingBackGasLiters - 2 * backGasToExit) / 3
      let rawBar := if 0 < vol then max 0 available / vol else 0
      let roundedBar := floorTen rawBar
      let roundedLiters := roundedBar * vol
      let recalcTurn := ceilTen (res.remainingBackGasBar - roundedBar)
      { possible := decide (0 < roundedBar)
        scenarioKind := ScenarioTag.backgasReentry
        availableGasLiters := roundedLiters
        availableGasBar := roundedBar
        gasSourceLabel := "Back Gas"
        gasSourceVolume := vol
        backGasToExitLiters := backGasToExit
        backGasToExitBar := backGasToExitBar
        recalcTurnPressureBar := recalcTurn }
    else
      let actualStageReservation :=
        droppedWithGas.foldl (fun acc s => acc + s.currentPressure * s.volume) 0
      let available :=
        (res.remainingBackGasLiters - actualStageReservation - 2 * backGasToExit) / 3
      let rawBar := if 0 < vol then max 0 available / vol else 0
      let roundedBar := floorTen rawBar
      let roundedLiters := roundedBar * vol
      let recalcTurn := ceilTen (res.remainingBackGasBar - roundedBar)
      { possible := decide (0 < roundedBar)
        scenarioKind := ScenarioTag.backgasReentry
        availableGasLiters := roundedLiters
        availableGasBar := roundedBar
        gasSourceLabel := "Back Gas"
        gasSourceVolume := vol
        backGasToExitLiters := backGasToExit
        backGasToExitBar := backGasToExitBar
        recalcTurnPressureBar := recalcTurn
        stageReservationLiters := some actualStageReservation }

/-- The second pass of calculateDive over the zipped sections and first-pass
snapshots; the Option argument is the active recalculation turn pressure
(`activeRecalcTurnPressure` in the source). -/
def secondPass (vol totalUsedAtEnd : ℚ) :
    List (Section × SectionResult) → Option ℚ → List SectionResult
  | [], _ => []
  | p :: rest, active =>
    if p.1.type = SectionType.recalculation then
      let rc := computeRecalc vol totalUsedAtEnd p.2
      let active2 : Option ℚ :=
        some (if rc.possible then rc.recalcTurnPressureBar else p.2.remainingBackGasBar)
      { p.2 with recalculation := some rc } :: secondPass vol totalUsedAtEnd rest active2
    else
      match active with
      | some t =>
        if p.2.isWayBack then
          p.2 :: secondPass vol totalUsedAtEnd rest none
        else
          { p.2 with
            turnWarning := decide (p.2.remainingBackGasBar < t) && decide (0 < t) } ::
            secondPass vol totalUsedAtEnd rest (some t)
      | none => p.2 :: secondPass vol totalUsedAtEnd rest none

/-- calculateDive from gasCalculations.ts: the first pass over the sections
followed by the second pass that attaches recalculation results and fixes
turn warnings after a recalculation. -/
def calculateDive (cfg : StandingData) (secs : List Section) : DiveCalculation :=
  let ids := explicitDropStageIds secs false
  let fp := runSections cfg ids (initState cfg) secs
  let totalUsedAtEnd :=
    match fp.2.getLast? with
    | some r => r.backGasUsedTotal
    | none => 0
  { sections := secondPass (bottomGasVolume cfg) totalUsedAtEnd (secs.zip fp.2) none
    totalBackGas := totalBackGas cfg
    stageReservation := stageReservation cfg
    effectiveBackGas := effectiveBackGas cfg
    usableBackGas := usableBackGas cfg
    usableBackGasRounded := usableBackGasRounded cfg
    bottomGasVolume := bottomGasVolume cfg
    pendingDropInserts := fp.1.inserts }

/-- fixDistance from SectionList.svelte (lines 173-188). The source mutates
the target section's distance in place; here the returned value is `some d`
exactly when the source calls `updateSection(..., 'distance', d)`, and
`none` when the source returns without updating anything. The
`usableBackGas` argument is the prop App.svelte passes in
(`calculation.usableBackGasRounded`). -/
def fixDistance (sections : List Section) (results : List SectionResult)
    (usable : ℚ) (sectionIndex : ℕ) : Option ℚ :=
  match sections[sectionIndex]? with
  | none => none
  | some sec =>
    if sec.type ≠ SectionType.swim ∨ sec.distance = 0 then none
    else
      match results[sectionIndex]? with
      | none => none
      | some res =>
        let prevBackGasUsed : ℚ :=
          if 0 < sectionIndex then
            ((results[sectionIndex - 1]?).map (fun r => r.backGasUsedTotal)).getD 0
          else 0
        let backGasUsedInSection := res.backGasUsedTotal - prevBackGasUsed
        let availableBackGas := usable - prevBackGasUsed
        if availableBackGas ≤ 0 then some 0
        else if backGasUsedInSection ≤ 0 then none
        else
          some ((⌊sec.distance * availableBackGas / backGasUsedInSection⌋ : ℤ) : ℚ)

/-- Modelled from the spec: the `distanceFromExit` field of `SectionResult`
is declared in types.ts and exercised by the repository's tests, but the
code that computes it is not among the sources. Per the spec (§4.2 and the
testable properties of §8), it is the cumulative signed swim distance from
the exit: a swim while outbound adds its distance, a swim while returning
subtracts it, and every other section leaves it unchanged. -/
def distanceFromExit (cfg : StandingData) (secs : List Section) (i : ℕ) : ℚ :=
  let rs := (calculateDive cfg secs).sections
  (List.range (i + 1)).foldl
    (fun acc j =>
      match secs[j]?, rs[j]? with
      | some sec, some res =>
        if sec.type = SectionType.swim then
          if res.isWayBack then acc - sec.distance else acc + sec.distance
        else acc
      | _, _ => acc)
    0

instance : Inhabited SectionResult :=
  ⟨{ sectionId := ""
     time := 0
     depth := 0
     gasConsumed := 0
     runningTime := 0
     runningAvgDepth := 0
     remainingBackGasLiters := 0
     remainingBackGasBar := 0
     stageStates := []
     stageDroppedIds := []
     turnWarning := false
     backGasUsedTotal := 0
     effectiveBackGas := 0
     usableBackGas := 0
     breathedStageIds := []
     breathedBackGas := false
     isWayBack := false }⟩

/-- The i-th per-segment snapshot of the final output of calculateDive
(a junk default past the end of the list). -/
def resultAt (cfg : StandingData) (secs : List Section) (i : ℕ) : SectionResult :=
  ((calculateDive cfg secs).sections[i]?).getD default

/-- The first-pass snapshots of calculateDive. -/
def firstPassResults (cfg : StandingData) (secs : List Section) : List SectionResult :=
  (runSections cfg (explicitDropStageIds secs false) (initState cfg) secs).2

/-- The back gas used by the end of the dive, read off the last first-pass
snapshot. -/
def totalUsedAtEnd (cfg : StandingData) (secs : List Section) : ℚ :=
  match (firstPassResults cfg secs).getLast? with
  | some r => r.backGasUsedTotal
  | none => 0

/-- The simulation state of the first pass before processing index i. -/
def stateAt (cfg : StandingData) (ids : List String) :
    SimState → List Section → ℕ → SimState
  | st, _, 0 => st
  | st, [], _ + 1 => st
  | st, sec :: rest, i + 1 => stateAt cfg ids (simStep cfg ids st sec).1 rest i

/-- The recalculation turn pressure that a recalculation installs for the
following way-in sections: the recalc turn pressure when feasible, else the
exact remaining pressure. -/
def thresholdOf (vol tot : ℚ) (p : Section × SectionResult) : ℚ :=
  let rc := computeRecalc vol tot p.2
  if rc.possible then rc.recalcTurnPressureBar else p.2.remainingBackGasBar

/-- One step of the second pass's active-threshold state. -/
def spStep (vol tot : ℚ) (p : Section × SectionResult) (a : Option ℚ) : Option ℚ :=
  if p.1.type = SectionType.recalculation then some (thresholdOf vol tot p)
  else
    match a with
    | some _ => if p.2.isWayBack then none else a
    | none => none

/-- The snapshot emitted by the second pass for one zipped pair, given the
active threshold before it. -/
def spResult (vol tot : ℚ) (p : Section × SectionResult) (a : Option ℚ) : SectionResult :=
  if p.1.type = SectionType.recalculation then
    { p.2 with recalculation := some (computeRecalc vol tot p.2) }
  else
    match a with
    | some t =>
      if p.2.isWayBack then p.2
      else { p.2 with turnWarning := decide (p.2.remainingBackGasBar < t) && decide (0 < t) }
    | none => p.2

/-- The active threshold of the second pass before processing index i. -/
def activeAt (vol tot : ℚ) : List (Section × SectionResult) → Option ℚ → ℕ → Option ℚ
  | _, a, 0 => a
  | [], a, _ + 1 => a
  | p :: rest, a, i + 1 => activeAt vol tot rest (spStep vol tot p a) i

/-- The i-th first-pass snapshot (a junk default past the end). -/
def fpResultAt (cfg : StandingData) (secs : List Section) (i : ℕ) : SectionResult :=
  ((firstPassResults cfg secs)[i]?).getD default

/-- Index r opens a recalculation window that is still active at index i:
r is a recalculation before i, no later recalculation intervenes, and every
section strictly between them is reported outbound (the window is closed by
the first returning section). -/
def adjustedWindow (cfg : StandingData) (secs : List Section) (r i : ℕ) : Prop :=
  r < i ∧ (∃ sec, secs[r]? = some sec ∧ sec.type = SectionType.recalculation) ∧
    ∀ k, r < k → k < i →
      (∀ sec, secs[k]? = some sec → sec.type ≠ SectionType.recalculation) ∧
      (resultAt cfg secs k).isWayBack = false

/-- The threshold installed by the recalculation at index r, read off the
final output: the recalculation turn pressure when feasible, else the exact
remaining pressure at the recalculation point. -/
def recalcThreshold (cfg : StandingData) (secs : List Section) (r : ℕ) : ℚ :=
  match (resultAt cfg secs r).recalculation with
  | some rc =>
    if rc.possible then rc.recalcTurnPressureBar
    else (resultAt cfg secs r).remainingBackGasBar
  | none => 0

/-- A swim section literal. -/
def swimSec (i : String) (d dist : ℚ) : Section :=
  { id := i, type := SectionType.swim, avgDepth := d, distance := dist }

/-- A zero-extent navigation/marker section literal. -/
def navSec (i : String) (t : SectionType) : Section :=
  { id := i, type := t, avgDepth := 0, distance := 0 }

/-- A stage drop/pickup section literal. -/
def stageSec (i sid : String) : Section :=
  { id := i, type := SectionType.stageDrop, avgDepth := 0, distance := 0, stageId := some sid }

/-- The example configuration of the spec: SCR 20, swim speed 10, 2x80 (22 L)
at 220 bar, no stages, no conservatism. -/
def cfgExample : StandingData :=
  { scr := 20
    swimSpeed := 10
    bottomGasType := "2x80"
    bottomGasFillPressure := 220
    conservatism := 0
    stageStandingTime := 2
    stages := [] }

/-- The test-suite configuration: SCR 20, swim speed 15, 2x80 at 220 bar. -/
def cfgTests : StandingData :=
  { scr := 20
    swimSpeed := 15
    bottomGasType := "2x80"
    bottomGasFillPressure := 220
    conservatism := 0
    stageStandingTime := 2
    stages := [] }

/-- Scenario B of the test suite: the recalculation-adjusted threshold (130)
is lower than the normal turn pressure (150). -/
def secsScenB : List Section :=
  [swimSec "a" 10 450, navSec "b" SectionType.turnaround, swimSec "c" 10 45,
   navSec "d" SectionType.recalculation, swimSec "e" 10 100,
   navSec "f" SectionType.turnaround, swimSec "g" 10 100]

/-- The configuration of the C6 counterexample: one Alu80 stage at 210 bar
flagged "reserve in back gas". -/
def cfgReserve : StandingData :=
  { scr := 20
    swimSpeed := 15
    bottomGasType := "2x80"
    bottomGasFillPressure := 220
    conservatism := 0
    stageStandingTime := 2
    stages := [{ id := "s1", tankType := "alu80", fillPressure := 210, reserveInBackGas := true }] }

/-- The C3 plan with an asymmetric return: swim 100 m in at 10 m, turn,
swim only 50 m back, recalculation. -/
def secsAsym : List Section :=
  [swimSec "s1" 10 100, navSec "s2" SectionType.turnaround, swimSec "s3" 10 50,
   navSec "s4" SectionType.recalculation]

/-- The C5 plan from the repository's own test suite: a 200 m round trip at
20 m, recalculation at the exit, then a 500 m side-passage swim that breaks
the budget. -/
def secsSide : List Section :=
  [swimSec "s1" 20 200, navSec "s2" SectionType.turnaround, swimSec "s3" 20 200,
   navSec "s4" SectionType.recalculation, swimSec "s5" 20 500]

/-- The kill-stage test configuration: one Alu80 stage at 210 bar, not
reserved against back gas. -/
def cfgStage : StandingData :=
  { scr := 20
    swimSpeed := 15
    bottomGasType := "2x80"
    bottomGasFillPressure := 220
    conservatism := 0
    stageStandingTime := 2
    stages := [{ id := "s1", tankType := "alu80", fillPressure := 210, reserveInBackGas := false }] }

/-- The kill-stage test plan: stage in, drop, turn, pickup on the way out,
side trip with a recalculation. -/
def secsKill : List Section :=
  [swimSec "a" 10 100, stageSec "b" "s1", swimSec "c" 10 100,
   navSec "d" SectionType.turnaround, swimSec "e" 10 100, stageSec "f" "s1",
   swimSec "g" 10 50, navSec "h" SectionType.recalculation, swimSec "i" 10 50,
   navSec "j" SectionType.turnaround, swimSec "k" 10 50]

/-- The picked-up stage state at the recalculation of the kill-stage plan. -/
def stageAtRecalc : StageState :=
  { id := "s1"
    tankType := "alu80"
    initialPressure := 210
    currentPressure := 1910 / 11
    volume := 11
    dropPressure := 0
    dropped := false }

/-- Relation between a stage state after one section step and the same stage
before it: the identity fields are unchanged, the pressure cannot rise (for a
positive tank volume), and the drop threshold changes only through a pickup
(a stage-drop section processed while returning), which zeroes it. -/
def SnapRel (sec : Section) (wayBack : Bool) (a b : StageState) : Prop :=
  a.id = b.id ∧ a.tankType = b.tankType ∧ a.volume = b.volume ∧
  a.initialPressure = b.initialPressure ∧
  (0 < b.volume → a.currentPressure ≤ b.currentPressure) ∧
  (a.dropPressure = b.dropPressure ∨
    (sec.type = SectionType.stageDrop ∧ wayBack = true ∧ sec.stageId = some b.id ∧
      a.dropPressure = 0))

/-- Relation established by the consumption loop alone: identity fields and
the drop threshold unchanged, pressure non-increasing. -/
def ConsRel (a b : StageState) : Prop :=
  a.id = b.id ∧ a.tankType = b.tankType ∧ a.volume = b.volume ∧
  a.initialPressure = b.initialPressure ∧
  (0 < b.volume → a.currentPressure ≤ b.currentPressure) ∧
  a.dropPressure = b.dropPressure

/-- An idle stage state: nothing consumed, original drop threshold. -/
def stageIdle : StageState :=
  { id := "s1"
    tankType := "alu80"
    initialPressure := 210
    currentPressure := 210
    volume := 11
    dropPressure := 120
    dropped := false }

/-- The C10 witness plan: one long outbound swim leaving 840 L, an
infeasible recalculation, and a further outbound swim on primary gas. -/
def secsTight : List Section :=
  [swimSec "a" 10 1000, navSec "b" SectionType.recalculation, swimSec "c" 10 100]

/-- The infeasible recalculation result at index 1 of the witness plan. -/
def rcTight : RecalculationResult :=
  { possible := false
    scenarioKind := ScenarioTag.backgasReentry
    availableGasLiters := 0
    availableGasBar := 0
    gasSourceLabel := "Back Gas"
    gasSourceVolume := 22
    backGasToExitLiters := 400
    backGasToExitBar := 200 / 11
    recalcTurnPressureBar := 40 }

/-- The C10 counterexample plan: the first swim overdraws the tank, the
recalculation is infeasible with a negative remaining pressure, and the
following outbound swim consumes primary gas yet is not flagged. -/
def secsNeg : List Section :=
  [swimSec "a" 30 3000, navSec "b" SectionType.recalculation, swimSec "c" 30 100]

lemma simStep_snd_isWayBack (cfg : StandingData) (ids : List String) (st : SimState)
    (sec : Section) : (simStep cfg ids st sec).2.isWayBack = st.isWayBack := rfl

lemma simStep_snd_stageStates (cfg : StandingData) (ids : List String) (st : SimState)
    (sec : Section) :
    (simStep cfg ids st sec).2.stageStates = (simStep cfg ids st sec).1.stageStates := rfl

lemma simStep_fst_stageStates (cfg : StandingData) (ids : List String) (st : SimState)
    (sec : Section) :
    (simStep cfg ids st sec).1.stageStates = (sectionConsumption cfg ids st sec).1 := rfl

lemma simStep_snd_rem (cfg : StandingData) (ids : List String) (st : SimState)
    (sec : Section) :
    (simStep cfg ids st sec).2.remainingBackGasLiters =
      (simStep cfg ids st sec).1.remainingBackGasLiters := rfl

lemma simStep_fst_rem (cfg : StandingData) (ids : List String) (st : SimState)
    (sec : Section) :
    (simStep cfg ids st sec).1.remainingBackGasLiters =
      (if 0 < (sectionConsumption cfg ids st sec).2.remaining then
        st.remainingBackGasLiters - (sectionConsumption cfg ids st sec).2.remaining
      else st.remainingBackGasLiters) := rfl

lemma simStep_snd_breathedBackGas (cfg : StandingData) (ids : List String) (st : SimState)
    (sec : Section) :
    (simStep cfg ids st sec).2.breathedBackGas =
      decide (0 < (sectionConsumption cfg ids st sec).2.remaining) := rfl

lemma simStep_snd_remBar (cfg : StandingData) (ids : List String) (st : SimState)
    (sec : Section) :
    (simStep cfg ids st sec).2.remainingBackGasBar =
      (if 0 < bottomGasVolume cfg then
        (simStep cfg ids st sec).1.remainingBackGasLiters / bottomGasVolume cfg
      else 0) := rfl

lemma simStep_snd_turnWarning (cfg : StandingData) (ids : List String) (st : SimState)
    (sec : Section) :
    (simStep cfg ids st sec).2.turnWarning =
      ((!st.isWayBack) && decide ((simStep cfg ids st sec).2.remainingBackGasBar <
          turnPressureBar cfg) && decide (0 < turnPressureBar cfg)) := rfl

lemma simStep_fst_isWayBack (cfg : StandingData) (ids : List String) (st : SimState)
    (sec : Section) :
    (simStep cfg ids st sec).1.isWayBack = nextDirection st.isWayBack sec := rfl

lemma runSections_snd_length (cfg : StandingData) (ids : List String) :
    ∀ (secs : List Section) (st : SimState),
      ((runSections cfg ids st secs).2).length = secs.length := by
  intro secs
  induction secs with
  | nil => intro st; rfl
  | cons sec rest ih => intro st; simp [runSections, ih]

lemma runSections_getElem? (cfg : StandingData) (ids : List String) :
    ∀ (secs : List Section) (st : SimState) (i : ℕ),
      ((runSections cfg ids st secs).2)[i]? =
        (secs[i]?).map (fun sec => (simStep cfg ids (stateAt cfg ids st secs i) sec).2) := by
  intro secs
  induction secs with
  | nil => intro st i; simp [runSections]
  | cons sec rest ih =>
    intro st i
    cases i with
    | zero => simp [runSections, stateAt]
    | succ n => simp [runSections, stateAt, ih]

lemma stateAt_succ_of_getElem? (cfg : StandingData) (ids : List String) :
    ∀ (secs : List Section) (st : SimState) (i : ℕ) (sec : Section),
      secs[i]? = some sec →
      stateAt cfg ids st secs (i + 1) = (simStep cfg ids (stateAt cfg ids st secs i) sec).1 := by
  intro secs
  induction secs with
  | nil => intro st i sec h; simp at h
  | cons s0 rest ih =>
    intro st i sec h
    cases i with
    | zero =>
      simp only [List.getElem?_cons_zero, Option.some.injEq] at h
      subst h
      simp [stateAt]
    | succ n =>
      simp only [List.getElem?_cons_succ] at h
      exact ih (simStep cfg ids st s0).1 n sec h

lemma secondPass_length (vol tot : ℚ) :
    ∀ (l : List (Section × SectionResult)) (a : Option ℚ),
      (secondPass vol tot l a).length = l.length := by
  intro l
  induction l with
  | nil => intro a; rfl
  | cons p rest ih =>
    intro a
    by_cases h : p.1.type = SectionType.recalculation
    · simp [secondPass, h, ih]
    · cases a with
      | none => simp [secondPass, h, ih]
      | some t =>
        by_cases hw : p.2.isWayBack
        · simp [secondPass, h, hw, ih]
        · simp [secondPass, h, hw, ih]

lemma secondPass_getElem? (vol tot : ℚ) :
    ∀ (l : List (Section × SectionResult)) (a : Option ℚ) (i : ℕ),
      (secondPass vol tot l a)[i]? =
        (l[i]?).map (fun p => spResult vol tot p (activeAt vol tot l a i)) := by
  intro l
  induction l with
  | nil => intro a i; simp [secondPass]
  | cons p rest ih =>
    intro a i
    have hstep : secondPass vol tot (p :: rest) a =
        spResult vol tot p a :: secondPass vol tot rest (spStep vol tot p a) := by
      by_cases h : p.1.type = SectionType.recalculation
      · simp [secondPass, spResult, spStep, h, thresholdOf]
      · cases a with
        | none => simp [secondPass, spResult, spStep, h]
        | some t =>
          by_cases hw : p.2.isWayBack
          · simp [secondPass, spResult, spStep, h, hw]
          · simp [secondPass, spResult, spStep, h, hw]
    rw [hstep]
    cases i with
    | zero => simp [activeAt]
    | succ n => simp [ih, activeAt]

lemma zip_getElem? {α β : Type} :
    ∀ (l1 : List α) (l2 : List β) (i : ℕ),
      (l1.zip l2)[i]? = (l1[i]?).bind (fun a => (l2[i]?).map (fun b => (a, b))) := by
  intro l1
  induction l1 with
  | nil => intro l2 i; simp
  | cons a rest ih =>
    intro l2 i
    cases l2 with
    | nil => simp
    | cons b rest2 =>
      cases i with
      | zero => simp
      | succ n => simp [ih]

lemma calculateDive_sections_eq (cfg : StandingData) (secs : List Section) :
    (calculateDive cfg secs).sections =
      secondPass (bottomGasVolume cfg) (totalUsedAtEnd cfg secs)
        (secs.zip (firstPassResults cfg secs)) none := rfl

lemma firstPassResults_length (cfg : StandingData) (secs : List Section) :
    (firstPassResults cfg secs).length = secs.length :=
  runSections_snd_length cfg (explicitDropStageIds secs false) secs (initState cfg)

lemma calculateDive_sections_length (cfg : StandingData) (secs : List Section) :
    (calculateDive cfg secs).sections.length = secs.length := by
  rw [calculateDive_sections_eq, secondPass_length, List.length_zip,
    firstPassResults_length, Nat.min_self]

lemma fpResultAt_some (cfg : StandingData) (secs : List Section) (i : ℕ) (sec : Section)
    (hsec : secs[i]? = some sec) :
    (firstPassResults cfg secs)[i]? = some (fpResultAt cfg secs i) := by
  unfold fpResultAt firstPassResults
  rw [runSections_getElem?, hsec]
  rfl

lemma spResult_isWayBack (vol tot : ℚ) (p : Section × SectionResult) (a : Option ℚ) :
    (spResult vol tot p a).isWayBack = p.2.isWayBack := by
  unfold spResult
  by_cases h : p.1.type = SectionType.recalculation
  · simp [h]
  · cases a with
    | none => simp [h]
    | some t => by_cases hw : p.2.isWayBack <;> simp [h, hw]

lemma spResult_remBar (vol tot : ℚ) (p : Section × SectionResult) (a : Option ℚ) :
    (spResult vol tot p a).remainingBackGasBar = p.2.remainingBackGasBar := by
  unfold spResult
  by_cases h : p.1.type = SectionType.recalculation
  · simp [h]
  · cases a with
    | none => simp [h]
    | some t => by_cases hw : p.2.isWayBack <;> simp [h, hw]

lemma spResult_remLiters (vol tot : ℚ) (p : Section × SectionResult) (a : Option ℚ) :
    (spResult vol tot p a).remainingBackGasLiters = p.2.remainingBackGasLiters := by
  unfold spResult
  by_cases h : p.1.type = SectionType.recalculation
  · simp [h]
  · cases a with
    | none => simp [h]
    | some t => by_cases hw : p.2.isWayBack <;> simp [h, hw]

lemma spResult_stageStates (vol tot : ℚ) (p : Section × SectionResult) (a : Option ℚ) :
    (spResult vol tot p a).stageStates = p.2.stageStates := by
  unfold spResult
  by_cases h : p.1.type = SectionType.recalculation
  · simp [h]
  · cases a with
    | none => simp [h]
    | some t => by_cases hw : p.2.isWayBack <;> simp [h, hw]

lemma spResult_backGasUsedTotal (vol tot : ℚ) (p : Section × SectionResult) (a : Option ℚ) :
    (spResult vol tot p a).backGasUsedTotal = p.2.backGasUsedTotal := by
  unfold spResult
  by_cases h : p.1.type = SectionType.recalculation
  · simp [h]
  · cases a with
    | none => simp [h]
    | some t => by_cases hw : p.2.isWayBack <;> simp [h, hw]

lemma spResult_breathedBackGas (vol tot : ℚ) (p : Section × SectionResult) (a : Option ℚ) :
    (spResult vol tot p a).breathedBackGas = p.2.breathedBackGas := by
  unfold spResult
  by_cases h : p.1.type = SectionType.recalculation
  · simp [h]
  · cases a with
    | none => simp [h]
    | some t => by_cases hw : p.2.isWayBack <;> simp [h, hw]

lemma calculateDive_getElem? (cfg : StandingData) (secs : List Section) (i : ℕ)
    (sec : Section) (hsec : secs[i]? = some sec) :
    (calculateDive cfg secs).sections[i]? =
      some (spResult (bottomGasVolume cfg) (totalUsedAtEnd cfg secs)
        (sec, fpResultAt cfg secs i)
        (activeAt (bottomGasVolume cfg) (totalUsedAtEnd cfg secs)
          (secs.zip (firstPassResults cfg secs)) none i)) := by
  rw [calculateDive_sections_eq, secondPass_getElem?, zip_getElem?, hsec,
    fpResultAt_some cfg secs i sec hsec]
  rfl

lemma resultAt_eq (cfg : StandingData) (secs : List Section) (i : ℕ)
    (sec : Section) (hsec : secs[i]? = some sec) :
    resultAt cfg secs i =
      spResult (bottomGasVolume cfg) (totalUsedAtEnd cfg secs)
        (sec, fpResultAt cfg secs i)
        (activeAt (bottomGasVolume cfg) (totalUsedAtEnd cfg secs)
          (secs.zip (firstPassResults cfg secs)) none i) := by
  unfold resultAt
  rw [calculateDive_getElem? cfg secs i sec hsec]
  rfl

lemma resultAt_isWayBack (cfg : StandingData) (secs : List Section) (i : ℕ)
    (sec : Section) (hsec : secs[i]? = some sec) :
    (resultAt cfg secs i).isWayBack = (fpResultAt cfg secs i).isWayBack := by
  rw [resultAt_eq cfg secs i sec hsec, spResult_isWayBack]

lemma resultAt_remBar (cfg : StandingData) (secs : List Section) (i : ℕ)
    (sec : Section) (hsec : secs[i]? = some sec) :
    (resultAt cfg secs i).remainingBackGasBar =
      (fpResultAt cfg secs i).remainingBackGasBar := by
  rw [resultAt_eq cfg secs i sec hsec, spResult_remBar]

lemma fpResultAt_eq_simStep (cfg : StandingData) (secs : List Section) (i : ℕ)
    (sec : Section) (hsec : secs[i]? = some sec) :
    fpResultAt cfg secs i =
      (simStep cfg (explicitDropStageIds secs false)
        (stateAt cfg (explicitDropStageIds secs false) (initState cfg) secs i) sec).2 := by
  have h := fpResultAt_some cfg secs i sec hsec
  unfold firstPassResults at h
  rw [runSections_getElem? cfg (explicitDropStageIds secs false) secs (initState cfg) i,
    hsec] at h
  simpa using h.symm

lemma fpResultAt_turnWarning (cfg : StandingData) (secs : List Section) (i : ℕ)
    (sec : Section) (hsec : secs[i]? = some sec) :
    (fpResultAt cfg secs i).turnWarning =
      ((!(fpResultAt cfg secs i).isWayBack) &&
        decide ((fpResultAt cfg secs i).remainingBackGasBar < turnPressureBar cfg) &&
        decide (0 < turnPressureBar cfg)) := by
  rw [fpResultAt_eq_simStep cfg secs i sec hsec]
  rw [simStep_snd_turnWarning, simStep_snd_isWayBack]

lemma recalcThreshold_eq (cfg : StandingData) (secs : List Section) (r : ℕ)
    (sec : Section) (hsec : secs[r]? = some sec)
    (hty : sec.type = SectionType.recalculation) :
    recalcThreshold cfg secs r =
      thresholdOf (bottomGasVolume cfg) (totalUsedAtEnd cfg secs)
        (sec, fpResultAt cfg secs r) := by
  unfold recalcThreshold thresholdOf
  rw [resultAt_eq cfg secs r sec hsec]
  unfold spResult
  simp [hty]

lemma activeAt_succ (vol tot : ℚ) :
    ∀ (l : List (Section × SectionResult)) (a : Option ℚ) (i : ℕ)
      (p : Section × SectionResult), l[i]? = some p →
      activeAt vol tot l a (i + 1) = spStep vol tot p (activeAt vol tot l a i) := by
  intro l
  induction l with
  | nil => intro a i p h; simp at h
  | cons q rest ih =>
    intro a i p h
    cases i with
    | zero =>
      simp only [List.getElem?_cons_zero, Option.some.injEq] at h
      subst h
      simp [activeAt]
    | succ n =>
      simp only [List.getElem?_cons_succ] at h
      exact ih (spStep vol tot q a) n p h

lemma zip_fp_getElem? (cfg : StandingData) (secs : List Section) (i : ℕ)
    (sec : Section) (hsec : secs[i]? = some sec) :
    (secs.zip (firstPassResults cfg secs))[i]? = some (sec, fpResultAt cfg secs i) := by
  rw [zip_getElem?, hsec, fpResultAt_some cfg secs i sec hsec]
  rfl

lemma adjustedWindow_unique (cfg : StandingData) (secs : List Section) (r r' i : ℕ)
    (h : adjustedWindow cfg secs r i) (h' : adjustedWindow cfg secs r' i) : r = r' := by
  rcases Nat.lt_trichotomy r r' with hlt | heq | hgt
  · exfalso
    obtain ⟨sec', hsec', hty'⟩ := h'.2.1
    exact (h.2.2 r' hlt h'.1).1 sec' hsec' hty'
  · exact heq
  · exfalso
    obtain ⟨sec, hsec, hty⟩ := h.2.1
    exact (h'.2.2 r hgt h.1).1 sec hsec hty

lemma activeAt_char (cfg : StandingData) (secs : List Section) :
    ∀ (i : ℕ), i ≤ secs.length → ∀ (x : ℚ),
      (activeAt (bottomGasVolume cfg) (totalUsedAtEnd cfg secs)
          (secs.zip (firstPassResults cfg secs)) none i = some x ↔
        ∃ r, adjustedWindow cfg secs r i ∧ x = recalcThreshold cfg secs r) := by
  intro i
  induction i with
  | zero =>
    intro _ x
    constructor
    · intro h; exact absurd h (by simp [activeAt])
    · rintro ⟨r, hr, -⟩; exact absurd hr.1 (Nat.not_lt_zero r)
  | succ n ih =>
    intro hn x
    have hnlt : n < secs.length := Nat.lt_of_succ_le hn
    have hnle : n ≤ secs.length := Nat.le_of_lt hnlt
    have hsec : secs[n]? = some secs[n] := List.getElem?_eq_getElem hnlt
    have hzip := zip_fp_getElem? cfg secs n secs[n] hsec
    rw [activeAt_succ (bottomGasVolume cfg) (totalUsedAtEnd cfg secs)
      (secs.zip (firstPassResults cfg secs)) none n (secs[n], fpResultAt cfg secs n) hzip]
    by_cases hty : (secs[n]).type = SectionType.recalculation
    · constructor
      · intro h
        refine ⟨n, ⟨Nat.lt_succ_self n, ⟨secs[n], hsec, hty⟩, ?_⟩, ?_⟩
        · intro k hk1 hk2
          exact absurd (Nat.lt_of_lt_of_le (Nat.lt_of_le_of_lt hk1 hk2) (Nat.le_refl _))
            (by omega)
        · have : spStep (bottomGasVolume cfg) (totalUsedAtEnd cfg secs)
              (secs[n], fpResultAt cfg secs n)
              (activeAt (bottomGasVolume cfg) (totalUsedAtEnd cfg secs)
                (secs.zip (firstPassResults cfg secs)) none n) =
              some (thresholdOf (bottomGasVolume cfg) (totalUsedAtEnd cfg secs)
                (secs[n], fpResultAt cfg secs n)) := by
            unfold spStep
            simp [hty]
          rw [this] at h
          rw [recalcThreshold_eq cfg secs n secs[n] hsec hty]
          exact (Option.some.injEq _ _).mp h |>.symm
      · rintro ⟨r, hr, hx⟩
        have hrn : r = n := by
          rcases Nat.lt_trichotomy r n with hlt | heq | hgt
          · exfalso
            exact (hr.2.2 n hlt (Nat.lt_succ_self n)).1 secs[n] hsec hty
          · exact heq
          · have := hr.1; omega
        subst hrn
        have : spStep (bottomGasVolume cfg) (totalUsedAtEnd cfg secs)
            (secs[r], fpResultAt cfg secs r)
            (activeAt (bottomGasVolume cfg) (totalUsedAtEnd cfg secs)
              (secs.zip (firstPassResults cfg secs)) none r) =
            some (thresholdOf (bottomGasVolume cfg) (totalUsedAtEnd cfg secs)
              (secs[r], fpResultAt cfg secs r)) := by
          unfold spStep
          simp [hty]
        rw [this, hx, recalcThreshold_eq cfg secs r secs[r] hsec hty]
    · by_cases hwb : (fpResultAt cfg secs n).isWayBack
      · constructor
        · intro h
          exfalso
          have : spStep (bottomGasVolume cfg) (totalUsedAtEnd cfg secs)
              (secs[n], fpResultAt cfg secs n)
              (activeAt (bottomGasVolume cfg) (totalUsedAtEnd cfg secs)
                (secs.zip (firstPassResults cfg secs)) none n) = none := by
            unfold spStep
            rcases hopt : activeAt (bottomGasVolume cfg) (totalUsedAtEnd cfg secs)
              (secs.zip (firstPassResults cfg secs)) none n with _ | t
            · simp [hty]
            · simp [hty, hwb]
          rw [this] at h
          exact Option.noConfusion h
        · rintro ⟨r, hr, -⟩
          exfalso
          rcases Nat.lt_trichotomy r n with hlt | heq | hgt
          · have hw := (hr.2.2 n hlt (Nat.lt_succ_self n)).2
            rw [resultAt_isWayBack cfg secs n secs[n] hsec] at hw
            exact absurd hw (by simp [hwb])
          · subst heq
            obtain ⟨sec', hsec', hty'⟩ := hr.2.1
            rw [hsec] at hsec'
            exact hty ((Option.some.injEq _ _).mp hsec' ▸ hty')
          · have := hr.1; omega
      · have hpass : spStep (bottomGasVolume cfg) (totalUsedAtEnd cfg secs)
            (secs[n], fpResultAt cfg secs n)
            (activeAt (bottomGasVolume cfg) (totalUsedAtEnd cfg secs)
              (secs.zip (firstPassResults cfg secs)) none n) =
            activeAt (bottomGasVolume cfg) (totalUsedAtEnd cfg secs)
              (secs.zip (firstPassResults cfg secs)) none n := by
          unfold spStep
          rcases hopt : activeAt (bottomGasVolume cfg) (totalUsedAtEnd cfg secs)
            (secs.zip (firstPassResults cfg secs)) none n with _ | t
          · simp [hty]
          · simp [hty, hwb]
        rw [hpass, ih hnle x]
        constructor
        · rintro ⟨r, hr, hx⟩
          refine ⟨r, ⟨Nat.lt_succ_of_lt hr.1, hr.2.1, ?_⟩, hx⟩
          intro k hk1 hk2
          rcases Nat.lt_or_ge k n with hkn | hkn
          · exact hr.2.2 k hk1 hkn
          · have hkn' : k = n := by omega
            subst hkn'
            refine ⟨?_, ?_⟩
            · intro sec' hsec'
              rw [hsec] at hsec'
              exact fun hty' => hty ((Option.some.injEq _ _).mp hsec' ▸ hty')
            · rw [resultAt_isWayBack cfg secs k secs[k] hsec]
              simpa using hwb
        · rintro ⟨r, hr, hx⟩
          have hrn : r ≠ n := by
            intro heq
            subst heq
            obtain ⟨sec', hsec', hty'⟩ := hr.2.1
            rw [hsec] at hsec'
            exact hty ((Option.some.injEq _ _).mp hsec' ▸ hty')
          refine ⟨r, ⟨?_, hr.2.1, ?_⟩, hx⟩
          · have := hr.1; omega
          · intro k hk1 hk2
            exact hr.2.2 k hk1 (by omega)

lemma getElem?_lt_length {α : Type} (l : List α) (i : ℕ) (a : α)
    (h : l[i]? = some a) : i < l.length := by
  by_contra hc
  push_neg at hc
  rw [List.getElem?_eq_none hc] at h
  exact Option.noConfusion h

lemma turnWarning_iff (cfg : StandingData) (secs : List Section) (i : ℕ) (sec : Section)
    (hsec : secs[i]? = some sec) :
    ((resultAt cfg secs i).turnWarning = true ↔
      (resultAt cfg secs i).isWayBack = false ∧
      ((sec.type ≠ SectionType.recalculation ∧
        ∃ r, adjustedWindow cfg secs r i ∧ 0 < recalcThreshold cfg secs r ∧
          (resultAt cfg secs i).remainingBackGasBar < recalcThreshold cfg secs r) ∨
       ((sec.type = SectionType.recalculation ∨ ¬ ∃ r, adjustedWindow cfg secs r i) ∧
        0 < turnPressureBar cfg ∧
        (resultAt cfg secs i).remainingBackGasBar < turnPressureBar cfg))) := by
  have hi : i < secs.length := getElem?_lt_length secs i sec hsec
  have hile : i ≤ secs.length := Nat.le_of_lt hi
  have hIW := resultAt_isWayBack cfg secs i sec hsec
  have hRB := resultAt_remBar cfg secs i sec hsec
  by_cases hty : sec.type = SectionType.recalculation
  · have h1 : (resultAt cfg secs i).turnWarning = (fpResultAt cfg secs i).turnWarning := by
      rw [resultAt_eq cfg secs i sec hsec]
      unfold spResult
      simp [hty]
    rw [h1, fpResultAt_turnWarning cfg secs i sec hsec]
    constructor
    · intro h
      simp only [Bool.and_eq_true, Bool.not_eq_true', decide_eq_true_eq] at h
      exact ⟨by rw [hIW]; exact h.1.1, Or.inr ⟨Or.inl hty, h.2, by rw [hRB]; exact h.1.2⟩⟩
    · rintro ⟨hwb, hcase⟩
      rcases hcase with ⟨hne, -⟩ | ⟨-, htp, hlt⟩
      · exact absurd hty hne
      · simp only [Bool.and_eq_true, Bool.not_eq_true', decide_eq_true_eq]
        refine ⟨⟨?_, ?_⟩, htp⟩
        · rw [hIW] at hwb; exact hwb
        · rw [hRB] at hlt; exact hlt
  · rcases hA : activeAt (bottomGasVolume cfg) (totalUsedAtEnd cfg secs)
      (secs.zip (firstPassResults cfg secs)) none i with _ | t
    · have hwin : ¬ ∃ r, adjustedWindow cfg secs r i := by
        rintro ⟨r, hr⟩
        have h2 := (activeAt_char cfg secs i hile (recalcThreshold cfg secs r)).mpr ⟨r, hr, rfl⟩
        rw [hA] at h2
        exact Option.noConfusion h2
      have h1 : (resultAt cfg secs i).turnWarning = (fpResultAt cfg secs i).turnWarning := by
        rw [resultAt_eq cfg secs i sec hsec]
        unfold spResult
        simp [hty, hA]
      rw [h1, fpResultAt_turnWarning cfg secs i sec hsec]
      constructor
      · intro h
        simp only [Bool.and_eq_true, Bool.not_eq_true', decide_eq_true_eq] at h
        exact ⟨by rw [hIW]; exact h.1.1, Or.inr ⟨Or.inr hwin, h.2, by rw [hRB]; exact h.1.2⟩⟩
      · rintro ⟨hwb, hcase⟩
        rcases hcase with ⟨-, r, hr, -⟩ | ⟨-, htp, hlt⟩
        · exact absurd ⟨r, hr⟩ hwin
        · simp only [Bool.and_eq_true, Bool.not_eq_true', decide_eq_true_eq]
          refine ⟨⟨?_, ?_⟩, htp⟩
          · rw [hIW] at hwb; exact hwb
          · rw [hRB] at hlt; exact hlt
    · obtain ⟨r0, hr0, ht0⟩ := (activeAt_char cfg secs i hile t).mp hA
      have hwin : ∃ r, adjustedWindow cfg secs r i := ⟨r0, hr0⟩
      by_cases hwb : (fpResultAt cfg secs i).isWayBack
      · have h1 : (resultAt cfg secs i).turnWarning = (fpResultAt cfg secs i).turnWarning := by
          rw [resultAt_eq cfg secs i sec hsec]
          unfold spResult
          simp [hty, hA, hwb]
        rw [h1, fpResultAt_turnWarning cfg secs i sec hsec]
        constructor
        · intro h
          simp only [Bool.and_eq_true, Bool.not_eq_true', decide_eq_true_eq] at h
          exact absurd h.1.1 (by simp [hwb])
        · rintro ⟨hwbf, -⟩
          rw [hIW] at hwbf
          exact absurd hwbf (by simp [hwb])
      · have h1 : (resultAt cfg secs i).turnWarning =
            (decide ((fpResultAt cfg secs i).remainingBackGasBar < t) && decide (0 < t)) := by
          rw [resultAt_eq cfg secs i sec hsec]
          unfold spResult
          simp [hty, hA, hwb]
        rw [h1]
        constructor
        · intro h
          simp only [Bool.and_eq_true, decide_eq_true_eq] at h
          refine ⟨by rw [hIW]; simpa using hwb, Or.inl ⟨hty, r0, hr0, ?_, ?_⟩⟩
          · rw [← ht0]; exact h.2
          · rw [hRB, ← ht0]; exact h.1
        · rintro ⟨hwbf, hcase⟩
          rcases hcase with ⟨-, r1, hr1, hpos, hlt⟩ | ⟨hcon, -, -⟩
          · have hr10 : r1 = r0 := adjustedWindow_unique cfg secs r1 r0 i hr1 hr0
            subst hr10
            simp only [Bool.and_eq_true, decide_eq_true_eq]
            rw [hRB] at hlt
            rw [ht0]
            exact ⟨hlt, hpos⟩
          · rcases hcon with h | h
            · exact absurd h hty
            · exact absurd hwin h

/-- Shorthand for proofs by kernel evaluation of the decidability instance. -/
lemma evalTrue {p : Prop} [Decidable p] (h : Decidable.decide p = true) : p :=
  of_decide_eq_true h

lemma bottomGasVolume_pos (cfg : StandingData) : 0 < bottomGasVolume cfg := by
  unfold bottomGasVolume getBottomGasVolume BOTTOM_GAS_TYPES
  simp only [List.find?]
  by_cases h1 : ("2x80" == cfg.bottomGasType)
  · simp [h1]
  · by_cases h2 : ("d12" == cfg.bottomGasType)
    · simp [h1, h2]
    · simp [h1, h2]

lemma getStageVolume_pos (t : String) : 0 < getStageVolume t := by
  unfold getStageVolume STAGE_TANK_TYPES
  simp only [List.find?]
  by_cases h1 : ("alu80" == t)
  · simp [h1]
  · by_cases h2 : ("alu40" == t)
    · simp [h1, h2]
    · simp [h1, h2]

lemma usableBackGas_example : usableBackGas cfgExample = 4840 / 3 := by
  simp only [usableBackGas, effectiveBackGas, totalBackGas, stageReservation, cfgExample,
    bottomGasVolume, getBottomGasVolume, BOTTOM_GAS_TYPES, List.find?, List.foldl]
  norm_num

lemma turnPressureBar_example : turnPressureBar cfgExample = 150 := by
  have h22 : bottomGasVolume cfgExample = 22 := rfl
  unfold turnPressureBar
  rw [h22, if_pos (by norm_num : (0:ℚ) < 22), usableBackGas_example]
  unfold totalBackGas ceilTen
  rw [h22]
  have hx : ((22 : ℚ) * cfgExample.bottomGasFillPressure - 4840 / 3) / 22 / 10 = 44 / 3 := by
    show ((22 : ℚ) * 220 - 4840 / 3) / 22 / 10 = 44 / 3
    norm_num
  rw [hx]
  have hc : (⌈(44 : ℚ) / 3⌉ : ℤ) = 15 := by
    rw [Int.ceil_eq_iff]
    constructor
    · norm_num
    · norm_num
  rw [hc]
  norm_num

/-- C1: for every configuration with a positive primary tank volume, the turn
pressure is the fill pressure minus the usable-pressure equivalent rounded up
to the nearest 10 bar, and the rounded usable gas is the usable volume
rounded down to the nearest 10-bar equivalent; on the spec's example
configuration (SCR 20, speed 10, 22 L at 220 bar, no stages, conservatism 0)
the usable gas is 4840/3 L and the turn pressure is 150 bar. -/
theorem C1_turn_pressure_and_rounding (cfg : StandingData) (secs : List Section)
    (h : 0 < bottomGasVolume cfg) :
    turnPressureBar cfg =
      ((⌈(cfg.bottomGasFillPressure - usableBackGas cfg / bottomGasVolume cfg) / 10⌉ : ℤ) : ℚ)
        * 10 ∧
    (calculateDive cfg secs).usableBackGasRounded =
      ((⌊usableBackGas cfg / bottomGasVolume cfg / 10⌋ : ℤ) : ℚ) * 10 * bottomGasVolume cfg ∧
    usableBackGas cfgExample = 4840 / 3 ∧
    turnPressureBar cfgExample = 150 := by
  have hne : bottomGasVolume cfg ≠ 0 := ne_of_gt h
  refine ⟨?_, ?_, ?_, ?_⟩
  · unfold turnPressureBar ceilTen
    rw [if_pos h]
    have heq : (totalBackGas cfg - usableBackGas cfg) / bottomGasVolume cfg =
        cfg.bottomGasFillPressure - usableBackGas cfg / bottomGasVolume cfg := by
      unfold totalBackGas
      field_simp
      ring
    rw [heq]
  · show usableBackGasRounded cfg = _
    unfold usableBackGasRounded floorTen
    rw [if_pos h]
  · exact usableBackGas_example
  · exact turnPressureBar_example

/-- Witness for C1 at the spec's example configuration. -/
theorem C1_turn_pressure_and_rounding_witness :
    turnPressureBar cfgExample =
      ((⌈(cfgExample.bottomGasFillPressure -
            usableBackGas cfgExample / bottomGasVolume cfgExample) / 10⌉ : ℤ) : ℚ) * 10 ∧
    (calculateDive cfgExample []).usableBackGasRounded =
      ((⌊usableBackGas cfgExample / bottomGasVolume cfgExample / 10⌋ : ℤ) : ℚ) * 10 *
        bottomGasVolume cfgExample ∧
    usableBackGas cfgExample = 4840 / 3 ∧
    turnPressureBar cfgExample = 150 :=
  C1_turn_pressure_and_rounding cfgExample [] (bottomGasVolume_pos cfgExample)

/-- C2 (amended): a segment's final breach flag holds iff the diver is
outbound there, the applicable threshold is positive and the remaining
pressure is strictly below it; the applicable threshold is the
recalculation-adjusted one for non-recalculation segments inside an open
recalculation window (which extends through the turnaround and is cleared
at the first returning segment), and the normal turn pressure otherwise
(recalculation segments themselves always use the normal turn pressure). -/
theorem C2_breach_flag_characterization (cfg : StandingData) (secs : List Section)
    (i : ℕ) (sec : Section) (hsec : secs[i]? = some sec) :
    ((resultAt cfg secs i).turnWarning = true ↔
      (resultAt cfg secs i).isWayBack = false ∧
      ((sec.type ≠ SectionType.recalculation ∧
        ∃ r, adjustedWindow cfg secs r i ∧ 0 < recalcThreshold cfg secs r ∧
          (resultAt cfg secs i).remainingBackGasBar < recalcThreshold cfg secs r) ∨
       ((sec.type = SectionType.recalculation ∨ ¬ ∃ r, adjustedWindow cfg secs r i) ∧
        0 < turnPressureBar cfg ∧
        (resultAt cfg secs i).remainingBackGasBar < turnPressureBar cfg))) :=
  turnWarning_iff cfg secs i sec hsec

/-- Witness for C2 at the swim section following the recalculation of
scenario B. -/
theorem C2_breach_flag_characterization_witness :
    ((resultAt cfgTests secsScenB 4).turnWarning = true ↔
      (resultAt cfgTests secsScenB 4).isWayBack = false ∧
      (((swimSec "e" 10 100).type ≠ SectionType.recalculation ∧
        ∃ r, adjustedWindow cfgTests secsScenB r 4 ∧ 0 < recalcThreshold cfgTests secsScenB r ∧
          (resultAt cfgTests secsScenB 4).remainingBackGasBar <
            recalcThreshold cfgTests secsScenB r) ∨
       (((swimSec "e" 10 100).type = SectionType.recalculation ∨
          ¬ ∃ r, adjustedWindow cfgTests secsScenB r 4) ∧
        0 < turnPressureBar cfgTests ∧
        (resultAt cfgTests secsScenB 4).remainingBackGasBar < turnPressureBar cfgTests))) :=
  C2_breach_flag_characterization cfgTests secsScenB 4 (swimSec "e" 10 100) rfl

/-- Counterexample to C2 as stated: in scenario B the turnaround at index 5
follows the recalculation; per the claim the adjusted threshold is cleared
at that turnaround, so the normal turn pressure (150, positive) applies
there, the diver is outbound and the remaining pressure is below 150 — yet
the code does not flag it (it still applies the adjusted threshold 130
through the turnaround). -/
theorem C2_counterexample :
    secsScenB[5]?.map (fun s => s.type) = some SectionType.turnaround ∧
    secsScenB[3]?.map (fun s => s.type) = some SectionType.recalculation ∧
    (resultAt cfgTests secsScenB 5).isWayBack = false ∧
    0 < turnPressureBar cfgTests ∧
    (resultAt cfgTests secsScenB 5).remainingBackGasBar < turnPressureBar cfgTests ∧
    (resultAt cfgTests secsScenB 5).turnWarning = false :=
  evalTrue (by with_unfolding_all rfl)

/-- C8: fixDistance bails out with no update on every non-swim segment. -/
theorem C8_fixDistance_none (sections : List Section) (results : List SectionResult)
    (usable : ℚ) (i : ℕ) (sec : Section) (hsec : sections[i]? = some sec)
    (hty : sec.type ≠ SectionType.swim) :
    fixDistance sections results usable i = none := by
  unfold fixDistance
  rw [hsec]
  simp [hty]

/-- Witness for C8 on a turnaround section. -/
theorem C8_fixDistance_none_witness :
    fixDistance [navSec "x" SectionType.turnaround] [] 5 0 = none :=
  C8_fixDistance_none [navSec "x" SectionType.turnaround] [] 5 0
    (navSec "x" SectionType.turnaround) rfl (by decide)

lemma stageReservation_foldl (f : StageEntry → ℚ) :
    ∀ (l : List StageEntry) (acc : ℚ),
      List.foldl (fun a s => if s.reserveInBackGas then a + f s else a) acc l =
        acc + ((l.filter (fun s => s.reserveInBackGas)).map f).sum := by
  intro l
  induction l with
  | nil => intro acc; simp
  | cons e rest ih =>
    intro acc
    by_cases h : e.reserveInBackGas
    · simp only [List.foldl_cons, h, if_true, List.filter_cons, List.map_cons, List.sum_cons]
      rw [ih]
      ring
    · simp only [List.foldl_cons, h, if_false, List.filter_cons]
      rw [ih]
      simp [h]

/-- C6 (amended): for every stage flagged "reserve in primary", calculateDive
deducts the volume needed to breathe that stage from its fill pressure down
to its drop pressure (fill/2 + 15), i.e. (fill/2 − 15) × tank volume — not
half the stage's capacity. -/
theorem C6_stage_reservation (cfg : StandingData) (secs : List Section) :
    (calculateDive cfg secs).stageReservation =
      ((cfg.stages.filter (fun s => s.reserveInBackGas)).map
        (fun s => (s.fillPressure / 2 - 15) * getStageVolume s.tankType)).sum ∧
    (calculateDive cfg secs).effectiveBackGas =
      totalBackGas cfg -
        ((cfg.stages.filter (fun s => s.reserveInBackGas)).map
          (fun s => (s.fillPressure / 2 - 15) * getStageVolume s.tankType)).sum := by
  have hres : (calculateDive cfg secs).stageReservation = stageReservation cfg := rfl
  have heff : (calculateDive cfg secs).effectiveBackGas = effectiveBackGas cfg := rfl
  have hmain : stageReservation cfg =
      ((cfg.stages.filter (fun s => s.reserveInBackGas)).map
        (fun s => (s.fillPressure / 2 - 15) * getStageVolume s.tankType)).sum := by
    unfold stageReservation
    rw [show (fun (a : ℚ) (s : StageEntry) =>
        if s.reserveInBackGas then
          a + (s.fillPressure - (s.fillPressure / 2 + 15)) * getStageVolume s.tankType
        else a) =
        (fun (a : ℚ) (s : StageEntry) =>
          if s.reserveInBackGas then
            a + (s.fillPressure / 2 - 15) * getStageVolume s.tankType
          else a) from by
      funext a s
      by_cases h : s.reserveInBackGas
      · simp only [h, if_true]
        ring_nf
      · simp [h]]
    rw [stageReservation_foldl (fun s => (s.fillPressure / 2 - 15) * getStageVolume s.tankType)
      cfg.stages 0]
    ring
  refine ⟨by rw [hres, hmain], by rw [heff]; unfold effectiveBackGas; rw [hmain]⟩

/-- Counterexample to C6 as stated: with an Alu80 (11 L) stage at 210 bar
flagged for reservation, the code deducts 990 L (fill to drop pressure), not
half the capacity 210×11/2 = 1155 L; the effective primary gas is 3850 L,
not 4840 − 1155 = 3685 L. -/
theorem C6_counterexample :
    (calculateDive cfgReserve []).effectiveBackGas = 3850 ∧
    totalBackGas cfgReserve - 210 * 11 / 2 = 3685 ∧
    (3850 : ℚ) ≠ 3685 := by
  refine ⟨?_, ?_, by norm_num⟩
  · have h : (calculateDive cfgReserve []).effectiveBackGas = effectiveBackGas cfgReserve := rfl
    rw [h]
    simp only [effectiveBackGas, totalBackGas, stageReservation, cfgReserve,
      bottomGasVolume, getBottomGasVolume, getStageVolume, BOTTOM_GAS_TYPES, STAGE_TANK_TYPES,
      List.find?, List.foldl]
    norm_num
  · simp only [totalBackGas, cfgReserve, bottomGasVolume, getBottomGasVolume,
      BOTTOM_GAS_TYPES, List.find?]
    norm_num

/-- C3: on the asymmetric plan (out 100 m, back 50 m at 10 m, SCR 20, speed
10) the engine's gas-to-exit at the recalculation is 0 — because the code
derives it from the back gas consumed by the remaining plan, which is empty
here — while the spec-modelled distance from exit is 50 m and the spec's
formula demands 20 × 2 × (50/10) = 200 L. -/
theorem C3_gas_to_exit_divergence :
    ((resultAt cfgExample secsAsym 3).recalculation).map (fun rc => rc.backGasToExitLiters) =
      some 0 ∧
    distanceFromExit cfgExample secsAsym 3 = 50 ∧
    cfgExample.scr * (10 / 10 + 1) * (50 / cfgExample.swimSpeed) = 200 ∧
    (0 : ℚ) ≠ 200 :=
  evalTrue (by with_unfolding_all rfl)

/-- C5: on the repository's own fix-distance test scenario the side-passage
swim is flagged breached, and fixDistance (with the usableBackGasRounded
budget that App.svelte passes it) sets the distance to 0 — the original
usable budget is already exhausted by the main round trip, and the solver
ignores both the recalculation-adjusted budget and stage gas, contradicting
the spec and the repository's computeFixedDistance tests. -/
theorem C5_fixDistance_returns_zero :
    (resultAt cfgExample secsSide 4).turnWarning = true ∧
    fixDistance secsSide (calculateDive cfgExample secsSide).sections
      (calculateDive cfgExample secsSide).usableBackGasRounded 4 = some 0 ∧
    ((resultAt cfgExample secsSide 3).recalculation).map (fun rc => rc.possible) =
      some false :=
  evalTrue (by with_unfolding_all rfl)

lemma resultAt_recalculation (cfg : StandingData) (secs : List Section) (i : ℕ)
    (sec : Section) (hsec : secs[i]? = some sec)
    (hty : sec.type = SectionType.recalculation) :
    (resultAt cfg secs i).recalculation =
      some (computeRecalc (bottomGasVolume cfg) (totalUsedAtEnd cfg secs)
        (fpResultAt cfg secs i)) := by
  rw [resultAt_eq cfg secs i sec hsec]
  unfold spResult
  simp [hty]

lemma resultAt_stageStates (cfg : StandingData) (secs : List Section) (i : ℕ)
    (sec : Section) (hsec : secs[i]? = some sec) :
    (resultAt cfg secs i).stageStates = (fpResultAt cfg secs i).stageStates := by
  rw [resultAt_eq cfg secs i sec hsec, spResult_stageStates]

lemma resultAt_remLiters (cfg : StandingData) (secs : List Section) (i : ℕ)
    (sec : Section) (hsec : secs[i]? = some sec) :
    (resultAt cfg secs i).remainingBackGasLiters =
      (fpResultAt cfg secs i).remainingBackGasLiters := by
  rw [resultAt_eq cfg secs i sec hsec, spResult_remLiters]

lemma floorTen_le (x : ℚ) : floorTen x ≤ x := by
  unfold floorTen
  have h1 : ((⌊x / 10⌋ : ℤ) : ℚ) ≤ x / 10 := Int.floor_le (x / 10)
  have h2 : ((⌊x / 10⌋ : ℤ) : ℚ) * 10 ≤ (x / 10) * 10 :=
    mul_le_mul_of_nonneg_right h1 (by norm_num)
  calc ((⌊x / 10⌋ : ℤ) : ℚ) * 10 ≤ (x / 10) * 10 := h2
    _ = x := by field_simp

/-- The kill-stage branch of computeRecalc, in closed form. -/
lemma computeRecalc_kill (vol tot : ℚ) (res : SectionResult) (a : StageState)
    (hfind : res.stageStates.find?
      (fun s => !s.dropped && decide (0 < s.currentPressure)) = some a) :
    computeRecalc vol tot res =
      { possible := decide (tot - res.backGasUsedTotal + a.currentPressure * a.volume ≤
          res.remainingBackGasLiters / 2)
        scenarioKind := ScenarioTag.killStage
        availableGasLiters := floorTen a.currentPressure * a.volume
        availableGasBar := floorTen a.currentPressure
        gasSourceLabel := stageTankLabel a.tankType
        gasSourceVolume := a.volume
        backGasToExitLiters := tot - res.backGasUsedTotal
        backGasToExitBar := if 0 < vol then (tot - res.backGasUsedTotal) / vol else 0
        recalcTurnPressureBar := floorTen res.remainingBackGasBar
        stageRemainingLiters := some (floorTen a.currentPressure * a.volume)
        stageRemainingBar := some (floorTen a.currentPressure) } := by
  unfold computeRecalc
  rw [hfind]

/-- C4: at every recalculation where some un-dropped stage still holds gas,
the engine chooses the kill-stage scenario, reports it feasible exactly when
gas-to-exit plus the stage's remaining volume fits in half the remaining
primary volume, and installs as re-entry threshold the remaining primary
pressure at the recalculation point rounded down to the nearest 10 — which
is therefore never above that pressure. -/
theorem C4_kill_stage (cfg : StandingData) (secs : List Section) (i : ℕ)
    (sec : Section) (hsec : secs[i]? = some sec)
    (hty : sec.type = SectionType.recalculation) (a : StageState)
    (hfind : (resultAt cfg secs i).stageStates.find?
      (fun s => !s.dropped && decide (0 < s.currentPressure)) = some a) :
    ∃ rc, (resultAt cfg secs i).recalculation = some rc ∧
      rc.scenarioKind = ScenarioTag.killStage ∧
      (rc.possible = true ↔
        rc.backGasToExitLiters + a.currentPressure * a.volume ≤
          (resultAt cfg secs i).remainingBackGasLiters / 2) ∧
      rc.recalcTurnPressureBar = floorTen ((resultAt cfg secs i).remainingBackGasBar) ∧
      rc.recalcTurnPressureBar ≤ (resultAt cfg secs i).remainingBackGasBar := by
  rw [resultAt_stageStates cfg secs i sec hsec] at hfind
  rw [resultAt_recalculation cfg secs i sec hsec hty,
    resultAt_remLiters cfg secs i sec hsec, resultAt_remBar cfg secs i sec hsec]
  rw [computeRecalc_kill (bottomGasVolume cfg) (totalUsedAtEnd cfg secs)
    (fpResultAt cfg secs i) a hfind]
  refine ⟨_, rfl, rfl, ?_, rfl, floorTen_le _⟩
  simp only [decide_eq_true_eq]

set_option maxRecDepth 2500 in
/-- Witness for C4 on the kill-stage test plan. -/
theorem C4_kill_stage_witness :
    ∃ rc, (resultAt cfgStage secsKill 7).recalculation = some rc ∧
      rc.scenarioKind = ScenarioTag.killStage ∧
      (rc.possible = true ↔
        rc.backGasToExitLiters + stageAtRecalc.currentPressure * stageAtRecalc.volume ≤
          (resultAt cfgStage secsKill 7).remainingBackGasLiters / 2) ∧
      rc.recalcTurnPressureBar = floorTen ((resultAt cfgStage secsKill 7).remainingBackGasBar) ∧
      rc.recalcTurnPressureBar ≤ (resultAt cfgStage secsKill 7).remainingBackGasBar :=
  C4_kill_stage cfgStage secsKill 7 (navSec "h" SectionType.recalculation) rfl rfl
    stageAtRecalc (evalTrue (by with_unfolding_all rfl))

lemma consRel_refl (a : StageState) : ConsRel a a :=
  ⟨rfl, rfl, rfl, rfl, fun _ => le_refl _, rfl⟩

lemma snapRel_refl (sec : Section) (wb : Bool) (a : StageState) : SnapRel sec wb a a :=
  ⟨rfl, rfl, rfl, rfl, fun _ => le_refl _, Or.inl rfl⟩

lemma consRel_snapRel (sec : Section) (wb : Bool) (a b : StageState)
    (h : ConsRel a b) : SnapRel sec wb a b :=
  ⟨h.1, h.2.1, h.2.2.1, h.2.2.2.1, h.2.2.2.2.1, Or.inl h.2.2.2.2.2⟩

lemma updateFirst_forall₂ {α : Type} (R : α → α → Prop) (p : α → Bool) (f : α → α)
    (hrefl : ∀ a, R a a) (hf : ∀ a, p a = true → R (f a) a) :
    ∀ l : List α, List.Forall₂ R (updateFirst p f l) l := by
  intro l
  induction l with
  | nil => exact List.Forall₂.nil
  | cons a rest ih =>
    unfold updateFirst
    by_cases h : p a
    · simp only [h, if_true]
      exact List.Forall₂.cons (hf a h) (List.forall₂_same.mpr fun b _ => hrefl b)
    · simp only [h, if_false]
      exact List.Forall₂.cons (hrefl a) ih

lemma applyStageEvent_rel (sec : Section) (wb : Bool) (states : List StageState)
    (hty : sec.type = SectionType.stageDrop) :
    List.Forall₂ (SnapRel sec wb) (applyStageEvent wb sec.stageId states) states := by
  unfold applyStageEvent
  rcases hsid : sec.stageId with _ | sid
  · exact List.forall₂_same.mpr fun a _ => snapRel_refl sec wb a
  · cases wb with
    | false =>
      refine updateFirst_forall₂ _ _ _ (snapRel_refl sec false) ?_ states
      intro a _
      exact ⟨rfl, rfl, rfl, rfl, fun _ => le_refl _, Or.inl rfl⟩
    | true =>
      refine updateFirst_forall₂ _ _ _ (snapRel_refl sec true) ?_ states
      intro a hp
      by_cases hd : a.dropped
      · simp only [hd, if_true]
        refine ⟨rfl, rfl, rfl, rfl, fun _ => le_refl _, Or.inr ⟨hty, rfl, ?_, rfl⟩⟩
        rw [hsid]
        have : a.id = sid := by
          have := of_decide_eq_true (by simpa using hp)
          exact this
        rw [this]
      · simp only [hd, if_false]
        exact snapRel_refl sec true a

lemma consumeFromStages_rel (ids : List String) (sec : Section) (g : ℚ) :
    ∀ (states : List StageState) (cs : ConsumeState),
      List.Forall₂ ConsRel (consumeFromStages ids sec g states cs).1 states := by
  intro states
  induction states with
  | nil => intro cs; exact List.Forall₂.nil
  | cons st rest ih =>
    intro cs
    unfold consumeFromStages
    by_cases h0 : cs.remaining ≤ 0
    · simp only [h0, if_true]
      exact List.forall₂_same.mpr fun a _ => consRel_refl a
    · simp only [h0, if_false]
      by_cases hd : st.dropped
      · simp only [hd, if_true]
        exact List.Forall₂.cons (consRel_refl st) (ih cs)
      · simp only [hd, if_false]
        by_cases hav : (st.currentPressure - st.dropPressure) * st.volume ≤ 0
        · simp only [hav, if_true]
          by_cases hmem : st.id ∈ ids
          · simp only [hmem, if_true]
            exact List.Forall₂.cons (consRel_refl st) (ih cs)
          · simp only [hmem, if_false]
            exact List.Forall₂.cons ⟨rfl, rfl, rfl, rfl, fun _ => le_refl _, rfl⟩ (ih _)
        · simp only [hav, if_false]
          by_cases hle : cs.remaining ≤ (st.currentPressure - st.dropPressure) * st.volume
          · simp only [hle, if_true]
            refine List.Forall₂.cons ⟨rfl, rfl, rfl, rfl, ?_, rfl⟩
              (List.forall₂_same.mpr fun a _ => consRel_refl a)
            intro hvol
            have hr : 0 < cs.remaining := lt_of_not_le h0
            have : 0 < cs.remaining / st.volume := div_pos hr hvol
            linarith
          · simp only [hle, if_false]
            have hav' : 0 < (st.currentPressure - st.dropPressure) * st.volume :=
              lt_of_not_le hav
            have hcur : ∀ _ : 0 < st.volume, st.dropPressure ≤ st.currentPressure := by
              intro hvol
              rcases mul_pos_iff.mp hav' with ⟨hpos, -⟩ | ⟨-, hvneg⟩
              · linarith
              · linarith
            by_cases hmem : st.id ∈ ids
            · simp only [hmem, if_true]
              exact List.Forall₂.cons ⟨rfl, rfl, rfl, rfl, hcur, rfl⟩ (ih _)
            · simp only [hmem, if_false]
              exact List.Forall₂.cons ⟨rfl, rfl, rfl, rfl, hcur, rfl⟩ (ih _)

lemma simStep_stage_rel (cfg : StandingData) (ids : List String) (st : SimState)
    (sec : Section) :
    List.Forall₂ (SnapRel sec st.isWayBack)
      (simStep cfg ids st sec).1.stageStates st.stageStates := by
  rw [simStep_fst_stageStates]
  unfold sectionConsumption preStates
  by_cases hty : sec.type = SectionType.stageDrop
  · simp only [hty, if_true]
    exact applyStageEvent_rel sec st.isWayBack st.stageStates hty
  · simp only [hty, if_false]
    exact (consumeFromStages_rel ids sec (gasNeededFor cfg st sec) st.stageStates
      ⟨gasNeededFor cfg st sec, [], [], st.inserts⟩).imp
      (fun a b h => consRel_snapRel sec st.isWayBack a b h)

lemma forall₂_mem_left {α : Type} {R : α → α → Prop} :
    ∀ {l1 l2 : List α}, List.Forall₂ R l1 l2 → ∀ {a}, a ∈ l1 → ∃ b ∈ l2, R a b := by
  intro l1 l2 h
  induction h with
  | nil => intro a ha; exact absurd ha (List.not_mem_nil a)
  | cons hab hrest ih =>
    intro a ha
    rcases List.mem_cons.mp ha with rfl | ha2
    · exact ⟨_, List.mem_cons_self _ _, hab⟩
    · obtain ⟨b, hb, hr⟩ := ih ha2
      exact ⟨b, List.mem_cons_of_mem _ hb, hr⟩

lemma forall₂_id_map {R : StageState → StageState → Prop}
    (hid : ∀ a b, R a b → a.id = b.id) :
    ∀ {l1 l2 : List StageState}, List.Forall₂ R l1 l2 →
      l1.map (fun s => s.id) = l2.map (fun s => s.id) := by
  intro l1 l2 h
  induction h with
  | nil => rfl
  | cons hab hrest ih => simp [hid _ _ hab, ih]

lemma forall₂_find?_right {R : StageState → StageState → Prop}
    (hid : ∀ a b, R a b → a.id = b.id) (sid : String) :
    ∀ {l1 l2 : List StageState}, List.Forall₂ R l1 l2 → ∀ {b},
      l1.find? (fun s => s.id == sid) = some b →
      ∃ a, l2.find? (fun s => s.id == sid) = some a ∧ R b a := by
  intro l1 l2 h
  induction h with
  | nil => intro b hb; exact absurd hb (by simp)
  | @cons x y l1' l2' hab hrest ih =>
    intro b hb
    have hpred : (x.id == sid) = (y.id == sid) := by rw [hid x y hab]
    by_cases hx : (x.id == sid) = true
    · have hy : (y.id == sid) = true := by rw [← hpred]; exact hx
      simp only [List.find?, hx] at hb
      refine ⟨y, by simp [List.find?, hy], ?_⟩
      have hxb : x = b := (Option.some.injEq _ _).mp hb
      rw [← hxb]
      exact hab
    · rw [Bool.not_eq_true] at hx
      have hy : (y.id == sid) = false := by rw [← hpred]; exact hx
      simp only [List.find?, hx] at hb
      obtain ⟨a, ha, hr⟩ := ih hb
      refine ⟨a, ?_, hr⟩
      simp only [List.find?, hy]
      exact ha

lemma stateAt_zero (cfg : StandingData) (ids : List String) (st : SimState)
    (secs : List Section) : stateAt cfg ids st secs 0 = st := by
  cases secs <;> rfl

lemma stateAt_stable (cfg : StandingData) (ids : List String) :
    ∀ (secs : List Section) (st : SimState) (i : ℕ), secs[i]? = none →
      stateAt cfg ids st secs (i + 1) = stateAt cfg ids st secs i := by
  intro secs
  induction secs with
  | nil =>
    intro st i _
    cases i <;> rfl
  | cons s0 rest ih =>
    intro st i h
    cases i with
    | zero => simp at h
    | succ n =>
      simp only [List.getElem?_cons_succ] at h
      show stateAt cfg ids (simStep cfg ids st s0).1 rest (n + 1) =
        stateAt cfg ids (simStep cfg ids st s0).1 rest n
      exact ih (simStep cfg ids st s0).1 n h

lemma stateAt_ids (cfg : StandingData) (secs : List Section) :
    ∀ i, ((stateAt cfg (explicitDropStageIds secs false) (initState cfg) secs i).stageStates).map
      (fun s => s.id) = cfg.stages.map (fun e => e.id) := by
  intro i
  induction i with
  | zero =>
    rw [stateAt_zero]
    show (initialStageStates cfg).map (fun s => s.id) = _
    unfold initialStageStates
    simp
  | succ n ih =>
    rcases hsec : secs[n]? with _ | sec
    · rw [stateAt_stable cfg (explicitDropStageIds secs false) secs (initState cfg) n hsec]
      exact ih
    · rw [stateAt_succ_of_getElem? cfg (explicitDropStageIds secs false) secs (initState cfg)
        n sec hsec]
      rw [forall₂_id_map (fun a b h => h.1)
        (simStep_stage_rel cfg (explicitDropStageIds secs false)
          (stateAt cfg (explicitDropStageIds secs false) (initState cfg) secs n) sec)]
      exact ih

lemma stateAt_volPos (cfg : StandingData) (secs : List Section) :
    ∀ i s, s ∈ (stateAt cfg (explicitDropStageIds secs false)
      (initState cfg) secs i).stageStates → 0 < s.volume := by
  intro i
  induction i with
  | zero =>
    intro s hs
    rw [stateAt_zero] at hs
    have : s ∈ initialStageStates cfg := hs
    unfold initialStageStates at this
    obtain ⟨e, -, he⟩ := List.mem_map.mp this
    rw [← he]
    exact getStageVolume_pos e.tankType
  | succ n ih =>
    intro s hs
    rcases hsec : secs[n]? with _ | sec
    · rw [stateAt_stable cfg (explicitDropStageIds secs false) secs (initState cfg) n hsec] at hs
      exact ih s hs
    · rw [stateAt_succ_of_getElem? cfg (explicitDropStageIds secs false) secs (initState cfg)
        n sec hsec] at hs
      obtain ⟨b, hb, hr⟩ := forall₂_mem_left
        (simStep_stage_rel cfg (explicitDropStageIds secs false)
          (stateAt cfg (explicitDropStageIds secs false) (initState cfg) secs n) sec) hs
      rw [hr.2.2.1]
      exact ih b hb

lemma fpResultAt_stageStates_eq (cfg : StandingData) (secs : List Section) (i : ℕ)
    (sec : Section) (hsec : secs[i]? = some sec) :
    (fpResultAt cfg secs i).stageStates =
      (stateAt cfg (explicitDropStageIds secs false) (initState cfg) secs (i + 1)).stageStates := by
  rw [fpResultAt_eq_simStep cfg secs i sec hsec, simStep_snd_stageStates,
    stateAt_succ_of_getElem? cfg (explicitDropStageIds secs false) secs (initState cfg) i
      sec hsec]

lemma fpResultAt_isWayBack_eq (cfg : StandingData) (secs : List Section) (i : ℕ)
    (sec : Section) (hsec : secs[i]? = some sec) :
    (fpResultAt cfg secs i).isWayBack =
      (stateAt cfg (explicitDropStageIds secs false) (initState cfg) secs i).isWayBack := by
  rw [fpResultAt_eq_simStep cfg secs i sec hsec, simStep_snd_isWayBack]

/-- C7: across consecutive snapshots of one run, a stage's recorded pressure
never rises, and its drop threshold changes only when the section between
the snapshots is a stage-event for that stage processed while returning — a
pickup — which sets the threshold to zero. -/
theorem C7_stage_pressure_monotone (cfg : StandingData) (secs : List Section) (i : ℕ)
    (sec1 sec2 : Section) (h1 : secs[i]? = some sec1) (h2 : secs[i + 1]? = some sec2)
    (sid : String) (s2 : StageState)
    (hfind : (resultAt cfg secs (i + 1)).stageStates.find?
      (fun s => s.id == sid) = some s2) :
    ∃ s1, (resultAt cfg secs i).stageStates.find? (fun s => s.id == sid) = some s1 ∧
      s2.currentPressure ≤ s1.currentPressure ∧
      (s2.dropPressure ≠ s1.dropPressure →
        sec2.type = SectionType.stageDrop ∧ sec2.stageId = some sid ∧
        (resultAt cfg secs (i + 1)).isWayBack = true ∧ s2.dropPressure = 0) := by
  rw [resultAt_stageStates cfg secs (i + 1) sec2 h2,
    fpResultAt_stageStates_eq cfg secs (i + 1) sec2 h2] at hfind
  have hrel : List.Forall₂
      (SnapRel sec2 (stateAt cfg (explicitDropStageIds secs false)
        (initState cfg) secs (i + 1)).isWayBack)
      (stateAt cfg (explicitDropStageIds secs false) (initState cfg) secs (i + 2)).stageStates
      (stateAt cfg (explicitDropStageIds secs false) (initState cfg) secs (i + 1)).stageStates := by
    rw [show i + 2 = (i + 1) + 1 from rfl,
      stateAt_succ_of_getElem? cfg (explicitDropStageIds secs false) secs (initState cfg)
        (i + 1) sec2 h2]
    exact simStep_stage_rel cfg (explicitDropStageIds secs false) _ sec2
  obtain ⟨s1, hfind1, hr⟩ := forall₂_find?_right (fun a b h => h.1) sid hrel hfind
  have hmem1 : s1 ∈ (stateAt cfg (explicitDropStageIds secs false)
      (initState cfg) secs (i + 1)).stageStates := List.mem_of_find?_eq_some hfind1
  have hvol : 0 < s1.volume := stateAt_volPos cfg secs (i + 1) s1 hmem1
  have hsid1 : s1.id = sid := by
    have := List.find?_some hfind1
    simpa using this
  refine ⟨s1, ?_, hr.2.2.2.2.1 hvol, ?_⟩
  · rw [resultAt_stageStates cfg secs i sec1 h1,
      fpResultAt_stageStates_eq cfg secs i sec1 h1]
    exact hfind1
  · intro hne
    rcases hr.2.2.2.2.2 with heq | ⟨hty, hwb, hsid, hzero⟩
    · exact absurd heq hne
    · refine ⟨hty, by rw [hsid, hsid1], ?_, hzero⟩
      rw [resultAt_isWayBack cfg secs (i + 1) sec2 h2,
        fpResultAt_isWayBack_eq cfg secs (i + 1) sec2 h2]
      exact hwb

set_option maxRecDepth 2500 in
/-- Witness for C7 across the first step of a two-marker plan. -/
theorem C7_stage_pressure_monotone_witness :
    ∃ s1, (resultAt cfgStage [navSec "a" SectionType.tLeft, navSec "b" SectionType.tRight]
        0).stageStates.find? (fun s => s.id == "s1") = some s1 ∧
      stageIdle.currentPressure ≤ s1.currentPressure ∧
      (stageIdle.dropPressure ≠ s1.dropPressure →
        (navSec "b" SectionType.tRight).type = SectionType.stageDrop ∧
        (navSec "b" SectionType.tRight).stageId = some "s1" ∧
        (resultAt cfgStage [navSec "a" SectionType.tLeft, navSec "b" SectionType.tRight]
          (0 + 1)).isWayBack = true ∧
        stageIdle.dropPressure = 0) :=
  C7_stage_pressure_monotone cfgStage
    [navSec "a" SectionType.tLeft, navSec "b" SectionType.tRight] 0
    (navSec "a" SectionType.tLeft) (navSec "b" SectionType.tRight)
    rfl rfl "s1" stageIdle (evalTrue (by with_unfolding_all rfl))

lemma updateFirst_eq_self {α : Type} (p : α → Bool) (f : α → α) :
    ∀ l : List α, (∀ a ∈ l, p a = false) → updateFirst p f l = l := by
  intro l
  induction l with
  | nil => intro _; rfl
  | cons a rest ih =>
    intro h
    unfold updateFirst
    rw [h a (List.mem_cons_self a rest)]
    simp only [Bool.false_eq_true, if_false]
    rw [ih fun b hb => h b (List.mem_cons_of_mem a hb)]

/-- C9: a stage-event section whose stage id matches no configured stage is
a no-op for the stage states: the run completes (the embedding is total) and
the snapshot at that section carries the same stage states as the previous
snapshot (the initial states when it is the first section). -/
theorem C9_dangling_stage_noop (cfg : StandingData) (secs : List Section) (i : ℕ)
    (sec : Section) (hsec : secs[i]? = some sec)
    (hty : sec.type = SectionType.stageDrop)
    (hmiss : ∀ e ∈ cfg.stages, some e.id ≠ sec.stageId) :
    (i = 0 → (resultAt cfg secs 0).stageStates = initialStageStates cfg) ∧
    (∀ j, i = j + 1 →
      (resultAt cfg secs i).stageStates = (resultAt cfg secs j).stageStates) := by
  have hstep : (stateAt cfg (explicitDropStageIds secs false) (initState cfg) secs
      (i + 1)).stageStates =
      (stateAt cfg (explicitDropStageIds secs false) (initState cfg) secs i).stageStates := by
    rw [stateAt_succ_of_getElem? cfg (explicitDropStageIds secs false) secs (initState cfg)
      i sec hsec]
    rw [simStep_fst_stageStates]
    unfold sectionConsumption preStates
    simp only [hty, if_true]
    rcases hsid : sec.stageId with _ | sid
    · rfl
    · have hids := stateAt_ids cfg secs i
      have hfalse : ∀ s ∈ (stateAt cfg (explicitDropStageIds secs false)
          (initState cfg) secs i).stageStates, (s.id == sid) = false := by
        intro s hs
        have hmem : s.id ∈ (stateAt cfg (explicitDropStageIds secs false)
            (initState cfg) secs i).stageStates.map (fun t => t.id) :=
          List.mem_map.mpr ⟨s, hs, rfl⟩
        rw [hids] at hmem
        obtain ⟨e, he, heq⟩ := List.mem_map.mp hmem
        have : e.id ≠ sid := by
          intro hcontra
          exact hmiss e he (by rw [hcontra, hsid])
        rw [heq] at this
        simpa using this
      unfold applyStageEvent
      cases hwb : (stateAt cfg (explicitDropStageIds secs false)
          (initState cfg) secs i).isWayBack
      · simp only [Bool.false_eq_true, if_false]
        exact updateFirst_eq_self _ _ _ hfalse
      · simp only [if_true]
        exact updateFirst_eq_self _ _ _ hfalse
  have hresi : (resultAt cfg secs i).stageStates =
      (stateAt cfg (explicitDropStageIds secs false) (initState cfg) secs i).stageStates := by
    rw [resultAt_stageStates cfg secs i sec hsec,
      fpResultAt_stageStates_eq cfg secs i sec hsec]
    exact hstep
  constructor
  · intro h0
    subst h0
    rw [hresi, stateAt_zero]
    rfl
  · intro j hj
    subst hj
    have hjlt : j < secs.length := by
      have := getElem?_lt_length secs (j + 1) sec hsec
      omega
    have hsecj : secs[j]? = some secs[j] := List.getElem?_eq_getElem hjlt
    rw [hresi, resultAt_stageStates cfg secs j secs[j] hsecj,
      fpResultAt_stageStates_eq cfg secs j secs[j] hsecj]

/-- Witness for C9: a stage-event referencing the unknown id "zz". -/
theorem C9_dangling_stage_noop_witness :
    (1 = 0 → (resultAt cfgStage [swimSec "a" 10 100, stageSec "b" "zz"] 0).stageStates =
      initialStageStates cfgStage) ∧
    (∀ j, 1 = j + 1 →
      (resultAt cfgStage [swimSec "a" 10 100, stageSec "b" "zz"] 1).stageStates =
        (resultAt cfgStage [swimSec "a" 10 100, stageSec "b" "zz"] j).stageStates) :=
  C9_dangling_stage_noop cfgStage [swimSec "a" 10 100, stageSec "b" "zz"] 1
    (stageSec "b" "zz") rfl rfl (by
      intro e he
      simp only [cfgStage, List.mem_singleton] at he
      subst he
      simp [stageSec])

lemma simStep_fst_rem_le (cfg : StandingData) (ids : List String) (st : SimState)
    (sec : Section) :
    (simStep cfg ids st sec).1.remainingBackGasLiters ≤ st.remainingBackGasLiters := by
  rw [simStep_fst_rem]
  by_cases h : 0 < (sectionConsumption cfg ids st sec).2.remaining
  · rw [if_pos h]
    linarith
  · rw [if_neg h]

lemma stateAt_rem_step (cfg : StandingData) (ids : List String) (st : SimState)
    (secs : List Section) (n : ℕ) :
    (stateAt cfg ids st secs (n + 1)).remainingBackGasLiters ≤
      (stateAt cfg ids st secs n).remainingBackGasLiters := by
  rcases h : secs[n]? with _ | sec
  · rw [stateAt_stable cfg ids secs st n h]
  · rw [stateAt_succ_of_getElem? cfg ids secs st n sec h]
    exact simStep_fst_rem_le cfg ids _ sec

lemma stateAt_rem_antitone (cfg : StandingData) (ids : List String) (st : SimState)
    (secs : List Section) (i j : ℕ) (hij : i ≤ j) :
    (stateAt cfg ids st secs j).remainingBackGasLiters ≤
      (stateAt cfg ids st secs i).remainingBackGasLiters := by
  induction j with
  | zero =>
    have : i = 0 := Nat.le_zero.mp hij
    subst this
    exact le_refl _
  | succ n ih =>
    rcases Nat.lt_or_ge i (n + 1) with hlt | hge
    · exact le_trans (stateAt_rem_step cfg ids st secs n) (ih (Nat.lt_succ_iff.mp hlt))
    · have : i = n + 1 := Nat.le_antisymm hij hge
      subst this
      exact le_refl _

lemma fpResultAt_remLiters_eq (cfg : StandingData) (secs : List Section) (i : ℕ)
    (sec : Section) (hsec : secs[i]? = some sec) :
    (fpResultAt cfg secs i).remainingBackGasLiters =
      (stateAt cfg (explicitDropStageIds secs false) (initState cfg) secs
        (i + 1)).remainingBackGasLiters := by
  rw [fpResultAt_eq_simStep cfg secs i sec hsec, simStep_snd_rem,
    stateAt_succ_of_getElem? cfg (explicitDropStageIds secs false) secs (initState cfg) i
      sec hsec]

lemma fpResultAt_breathed_lt (cfg : StandingData) (secs : List Section) (j : ℕ)
    (sec : Section) (hsec : secs[j]? = some sec)
    (hb : (fpResultAt cfg secs j).breathedBackGas = true) :
    (fpResultAt cfg secs j).remainingBackGasLiters <
      (stateAt cfg (explicitDropStageIds secs false) (initState cfg) secs
        j).remainingBackGasLiters := by
  rw [fpResultAt_eq_simStep cfg secs j sec hsec] at hb ⊢
  rw [simStep_snd_breathedBackGas] at hb
  have h0 : 0 < (sectionConsumption cfg (explicitDropStageIds secs false)
      (stateAt cfg (explicitDropStageIds secs false) (initState cfg) secs j) sec).2.remaining :=
    of_decide_eq_true hb
  rw [simStep_snd_rem, simStep_fst_rem, if_pos h0]
  linarith

lemma fpResultAt_remBar_eq (cfg : StandingData) (secs : List Section) (i : ℕ)
    (sec : Section) (hsec : secs[i]? = some sec) :
    (fpResultAt cfg secs i).remainingBackGasBar =
      (fpResultAt cfg secs i).remainingBackGasLiters / bottomGasVolume cfg := by
  rw [fpResultAt_eq_simStep cfg secs i sec hsec, simStep_snd_remBar,
    if_pos (bottomGasVolume_pos cfg), simStep_snd_rem]

lemma resultAt_breathedBackGas (cfg : StandingData) (secs : List Section) (i : ℕ)
    (sec : Section) (hsec : secs[i]? = some sec) :
    (resultAt cfg secs i).breathedBackGas = (fpResultAt cfg secs i).breathedBackGas := by
  rw [resultAt_eq cfg secs i sec hsec, spResult_breathedBackGas]

/-- C10 (amended): when a recalculation is infeasible, the threshold it
installs is the exact, unrounded remaining primary pressure at the
recalculation point, and — provided that pressure is positive — every
following outbound, non-recalculation segment up to the next returning
segment that consumes any primary gas is flagged breached. -/
theorem C10_infeasible_recalc_threshold (cfg : StandingData) (secs : List Section)
    (i j : ℕ) (seci secj : Section) (rc : RecalculationResult)
    (hseci : secs[i]? = some seci) (htyi : seci.type = SectionType.recalculation)
    (hrc : (resultAt cfg secs i).recalculation = some rc) (hposs : rc.possible = false)
    (hpos : 0 < (resultAt cfg secs i).remainingBackGasBar) (hij : i < j)
    (hsecj : secs[j]? = some secj)
    (hwindow : ∀ k, i < k → k ≤ j →
      (∀ s, secs[k]? = some s → s.type ≠ SectionType.recalculation) ∧
      (resultAt cfg secs k).isWayBack = false)
    (hbreath : (resultAt cfg secs j).breathedBackGas = true) :
    recalcThreshold cfg secs i = (resultAt cfg secs i).remainingBackGasBar ∧
    (resultAt cfg secs j).turnWarning = true := by
  have hth : recalcThreshold cfg secs i = (resultAt cfg secs i).remainingBackGasBar := by
    unfold recalcThreshold
    rw [hrc]
    simp [hposs]
  refine ⟨hth, ?_⟩
  have htyj : secj.type ≠ SectionType.recalculation :=
    (hwindow j hij (le_refl j)).1 secj hsecj
  have hwbj : (resultAt cfg secs j).isWayBack = false := (hwindow j hij (le_refl j)).2
  have hwin : adjustedWindow cfg secs i j := by
    refine ⟨hij, ⟨seci, hseci, htyi⟩, ?_⟩
    intro k hk1 hk2
    exact hwindow k hk1 (Nat.le_of_lt hk2)
  have hlt : (resultAt cfg secs j).remainingBackGasBar <
      (resultAt cfg secs i).remainingBackGasBar := by
    rw [resultAt_remBar cfg secs j secj hsecj, resultAt_remBar cfg secs i seci hseci,
      fpResultAt_remBar_eq cfg secs j secj hsecj, fpResultAt_remBar_eq cfg secs i seci hseci]
    have hfp : (fpResultAt cfg secs j).remainingBackGasLiters <
        (fpResultAt cfg secs i).remainingBackGasLiters := by
      have hb : (fpResultAt cfg secs j).breathedBackGas = true := by
        rw [← resultAt_breathedBackGas cfg secs j secj hsecj]
        exact hbreath
      calc (fpResultAt cfg secs j).remainingBackGasLiters
          < (stateAt cfg (explicitDropStageIds secs false) (initState cfg) secs
              j).remainingBackGasLiters := fpResultAt_breathed_lt cfg secs j secj hsecj hb
        _ ≤ (stateAt cfg (explicitDropStageIds secs false) (initState cfg) secs
              (i + 1)).remainingBackGasLiters :=
            stateAt_rem_antitone cfg (explicitDropStageIds secs false) (initState cfg)
              secs (i + 1) j hij
        _ = (fpResultAt cfg secs i).remainingBackGasLiters :=
            (fpResultAt_remLiters_eq cfg secs i seci hseci).symm
    exact (div_lt_div_iff_of_pos_right (bottomGasVolume_pos cfg)).mpr hfp
  rw [turnWarning_iff cfg secs j secj hsecj]
  refine ⟨hwbj, Or.inl ⟨htyj, i, hwin, ?_, ?_⟩⟩
  · rw [hth]
    exact hpos
  · rw [hth]
    exact hlt

/-- Witness for C10 on the tight plan. -/
theorem C10_infeasible_recalc_threshold_witness :
    recalcThreshold cfgExample secsTight 1 =
      (resultAt cfgExample secsTight 1).remainingBackGasBar ∧
    (resultAt cfgExample secsTight 2).turnWarning = true :=
  C10_infeasible_recalc_threshold cfgExample secsTight 1 2
    (navSec "b" SectionType.recalculation) (swimSec "c" 10 100) rcTight
    rfl rfl (evalTrue (by with_unfolding_all rfl)) rfl
    (evalTrue (by with_unfolding_all rfl)) (by decide) rfl
    (by
      intro k hk1 hk2
      have hk : k = 2 := by omega
      subst hk
      refine ⟨?_, evalTrue (by with_unfolding_all rfl)⟩
      intro s hs
      have hs2 : secsTight[2]? = some (swimSec "c" 10 100) := rfl
      rw [hs2] at hs
      have hss : s = swimSec "c" 10 100 := ((Option.some.injEq _ _).mp hs).symm
      subst hss
      decide)
    (evalTrue (by with_unfolding_all rfl))

/-- Counterexample to C10 as stated: after the over-budget swim the
recalculation at index 1 is infeasible and installs the exact (negative)
remaining pressure as threshold; the outbound swim at index 2 consumes
primary gas but carries no breach flag, because the installed threshold is
not positive. -/
theorem C10_counterexample :
    ((resultAt cfgExample secsNeg 1).recalculation).map (fun rc => rc.possible) =
      some false ∧
    (resultAt cfgExample secsNeg 1).remainingBackGasBar < 0 ∧
    recalcThreshold cfgExample secsNeg 1 = (resultAt cfgExample secsNeg 1).remainingBackGasBar ∧
    secsNeg[2]?.map (fun s => s.type) = some SectionType.swim ∧
    (resultAt cfgExample secsNeg 2).isWayBack = false ∧
    (resultAt cfgExample secsNeg 2).breathedBackGas = true ∧
    (resultAt cfgExample secsNeg 2).turnWarning = false := by
  have hposs : ((resultAt cfgExample secsNeg 1).recalculation).map (fun rc => rc.possible) =
      some false := evalTrue (by with_unfolding_all rfl)
  have hth : recalcThreshold cfgExample secsNeg 1 =
      (resultAt cfgExample secsNeg 1).remainingBackGasBar := by
    unfold recalcThreshold
    rcases hrc : (resultAt cfgExample secsNeg 1).recalculation with _ | rc
    · rw [hrc] at hposs
      exact absurd hposs (by simp)
    · rw [hrc] at hposs
      have hpf : rc.possible = false := by simpa using hposs
      simp [hpf]
  exact ⟨hposs, evalTrue (by with_unfolding_all rfl), hth,
    evalTrue (by with_unfolding_all rfl), evalTrue (by with_unfolding_all rfl),
    evalTrue (by with_unfolding_all rfl), evalTrue (by with_unfolding_all rfl)⟩

end CavePlanner
